import Mathlib

/-!
Verification of the telegive-media media-asset service against its
natural-language specification.

The development shallowly embeds the Python sources:
  * `src/utils/security_scanner.py`  (SecurityScanner)
  * `src/utils/file_validator.py`    (FileValidator)
  * `src/utils/file_storage.py`      (FileStorage.delete_file, save_file_content)
  * `src/models/media_file.py`       (MediaFile and its lifecycle helpers)
  * `src/tasks/cleanup_tasks.py`     (cleanup_scheduled_files, _cleanup_single_file)
  * `src/tasks/validation_tasks.py`  (_validate_single_file)
  * `src/routes/upload.py`           (upload_file)

Bytes are modelled as `List Nat` (each entry a byte value), timestamps as
`Nat`, and the filesystem as an association list from paths to contents.
External libraries (libmagic MIME sniffing, hashlib digests, PIL/ffmpeg
content parsing, werkzeug's secure_filename, uuid-based name generation)
are modelled as explicit environment parameters: the Python code treats
them as opaque oracles, and every theorem below is quantified over them
(or instantiates them concretely in counterexamples).  OS-level I/O
faults are modelled by an explicit set of faulting paths.
-/

namespace TelegiveMedia

/-! ## Byte-level helpers (Python `bytes` operations) -/

/-- `bytes.lower()` on a single byte: ASCII uppercase letters are shifted
to lowercase, everything else unchanged. -/
def lowerByte (b : Nat) : Nat :=
  if 65 ≤ b ∧ b ≤ 90 then b + 32 else b

/-- `bytes.lower()` over a whole byte string. -/
def bytesLower (c : List Nat) : List Nat :=
  c.map lowerByte

/-- ASCII bytes of a Lean string (all source patterns are ASCII). -/
def asciiBytes (s : String) : List Nat :=
  s.toList.map Char.toNat

/-- `pattern in content` on Python bytes: substring containment. -/
def containsPat (pat content : List Nat) : Bool :=
  content.tails.any (fun t => pat.isPrefixOf t)

/-- `needle in hay` on Python strings: substring containment. -/
def strContains (hay needle : String) : Bool :=
  hay.toList.tails.any (fun t => needle.toList.isPrefixOf t)

/-- Python `str.startswith`. -/
def strStartsWith (s pre : String) : Bool :=
  pre.toList.isPrefixOf s.toList

/-- `str.lower()` on a single character (ASCII, as in all uses here). -/
def charLower (ch : Char) : Char :=
  if 65 ≤ ch.toNat ∧ ch.toNat ≤ 90 then Char.ofNat (ch.toNat + 32) else ch

/-- Python `str.lower()`. -/
def strLower (s : String) : String :=
  String.mk (s.toList.map charLower)

/-- Python `str.split('.')`. -/
def splitOnDot : List Char → List (List Char)
  | [] => [[]]
  | c :: rest =>
      let r := splitOnDot rest
      if c = '.' then [] :: r
      else
        match r with
        | [] => [[c]]
        | h :: t => (c :: h) :: t

/-- `sep.join(xs)`. -/
def joinSep (sep : String) : List String → String
  | [] => ""
  | [x] => x
  | x :: y :: xs => x ++ sep ++ joinSep sep (y :: xs)

/-- Decode an ASCII byte pattern back to a string
(`pattern.decode('utf-8', errors='ignore')` on the source's patterns,
which are all valid single-byte UTF-8). -/
def decodeAscii (p : List Nat) : String :=
  String.mk (p.map Char.ofNat)

/-- Bytes matched by Python's regex class `\s` (whitespace). -/
def isSpaceByte (b : Nat) : Bool :=
  b = 32 ∨ (9 ≤ b ∧ b ≤ 13)

/-- Existence semantics of `re.search` for regexes of the shape
`proto MID+ suffix` where `MID` is a one-byte character class: some
position carries `proto`, then at least one `midOk` byte, then `suffix`. -/
def regexProtoMidSuffix (proto : List Nat) (midOk : Nat → Bool)
    (suffix : List Nat) (c : List Nat) : Bool :=
  c.tails.any (fun t =>
    proto.isPrefixOf t ∧
      (let rest := t.drop proto.length
       (List.range (rest.length + 1)).any (fun k =>
         decide (1 ≤ k) ∧ (rest.take k).all midOk ∧
           suffix.isPrefixOf (rest.drop k))))

/-! ## Security scanner (`src/utils/security_scanner.py`) -/

/-- Risk levels, ordered low < medium < high < critical. -/
inductive RiskLevel where
  | low
  | medium
  | high
  | critical
deriving DecidableEq, Repr

/-- Numeric rank of a risk level, for the ordering. -/
def RiskLevel.rank : RiskLevel → Nat
  | .low => 0
  | .medium => 1
  | .high => 2
  | .critical => 3

/-- Result of one of the scanner's individual checks. -/
structure CheckResult where
  safe : Bool
  threats : List String
deriving DecidableEq, Repr

/-- `SecurityScanner.suspicious_patterns` (same byte strings, same order). -/
def suspiciousPatterns : List (List Nat) :=
  [ asciiBytes "<script"
  , asciiBytes "</script>"
  , asciiBytes "javascript:"
  , asciiBytes "vbscript:"
  , asciiBytes "onload="
  , asciiBytes "onerror="
  , asciiBytes "onclick="
  , asciiBytes "onmouseover="
  , asciiBytes "<?php"
  , asciiBytes "<%"
  , asciiBytes "<asp:"
  , asciiBytes "#!/bin/"
  , asciiBytes "#!/usr/bin/"
  , asciiBytes "MZ"
  , [127] ++ asciiBytes "ELF"
  , asciiBytes "PK" ++ [3, 4] ]

/-- `SecurityScanner.dangerous_extensions`. -/
def dangerousExtensions : List String :=
  [ "exe", "bat", "cmd", "com", "pif", "scr", "vbs", "js"
  , "jar", "app", "deb", "pkg", "dmg", "rpm"
  , "php", "asp", "aspx", "jsp", "py", "rb", "pl"
  , "sh", "bash", "zsh", "fish" ]

/-- `SecurityScanner.blocked_mime_types`. -/
def blockedMimeTypes : List String :=
  [ "application/x-executable"
  , "application/x-msdownload"
  , "application/x-msdos-program"
  , "application/x-dosexec"
  , "application/x-winexe"
  , "application/x-sh"
  , "application/x-shellscript"
  , "text/x-php"
  , "application/x-php"
  , "text/x-python"
  , "application/x-python-code" ]

/-- `SecurityScanner._check_mime_type`. -/
def check_mime_type (mimeType : String) : CheckResult :=
  let t1 : List String :=
    if mimeType ∈ blockedMimeTypes then
      ["Blocked MIME type: " ++ mimeType]
    else []
  let t2 : List String :=
    if strStartsWith mimeType "application/x-" = true ∧
        (["executable", "script", "shellscript"].any
          (fun d => strContains mimeType d)) then
      ["Potentially dangerous MIME type: " ++ mimeType]
    else []
  ⟨(t1 ++ t2).isEmpty, t1 ++ t2⟩

/-- Index of the dot starting the extension, following
`os.path.splitext`: the last dot that has some non-dot character before
it (so purely-leading dots never start an extension). -/
def splitextIdx (cs : List Char) : Option Nat :=
  (List.range cs.length).foldl
    (fun acc i =>
      if (cs.drop i).head? = some '.' ∧
          (cs.take i).any (fun ch => ch ≠ '.') then
        some i
      else acc)
    none

/-- `os.path.splitext(filename)[1].lower().lstrip('.')`: the extension
without its leading dots, lowercased.  Shared by
`FileValidator._get_file_extension` and
`SecurityScanner._check_file_extension`. -/
def extOf (filename : String) : String :=
  match splitextIdx filename.toList with
  | none => ""
  | some i =>
      String.mk
        (((filename.toList.drop i).map charLower).dropWhile
          (fun ch => ch = '.'))

/-- `SecurityScanner._check_file_extension`. -/
def check_file_extension (filename : String) : CheckResult :=
  let extension := extOf filename
  let t1 : List String :=
    if extension ∈ dangerousExtensions then
      ["Dangerous file extension: ." ++ extension]
    else []
  let parts := (splitOnDot filename.toList).map String.mk
  let t2 : List String :=
    if 2 < parts.length then
      ((parts.drop 1).dropLast.filter
          (fun part => strLower part ∈ dangerousExtensions)).map
        (fun part => "Hidden dangerous extension: ." ++ part)
    else []
  ⟨(t1 ++ t2).isEmpty, t1 ++ t2⟩

/-- `SecurityScanner._check_suspicious_patterns`: the fixed byte
patterns, then the URL-shaped regexes, all over the lowercased content.
(The scan-details blob, which only feeds logging, is not modelled.) -/
def check_suspicious_patterns (content : List Nat) : CheckResult :=
  let cl := bytesLower content
  let t1 : List String :=
    (suspiciousPatterns.filter (fun pat => containsPat pat cl)).map
      (fun pat => "Suspicious pattern found: " ++ decodeAscii pat)
  let urlHits : List Bool :=
    ([ regexProtoMidSuffix (asciiBytes "http://")
         (fun b => ¬ isSpaceByte b) (asciiBytes ".exe") cl
     , regexProtoMidSuffix (asciiBytes "https://")
         (fun b => ¬ isSpaceByte b) (asciiBytes ".exe") cl
     , regexProtoMidSuffix (asciiBytes "ftp://")
         (fun b => ¬ isSpaceByte b) (asciiBytes ".exe") cl
     , regexProtoMidSuffix (asciiBytes "javascript:")
         (fun b => ¬ isSpaceByte b) [] cl
     , regexProtoMidSuffix (asciiBytes "data:")
         (fun b => b ≠ 59) (asciiBytes ";base64,") cl ]).filter id
  let t2 : List String :=
    urlHits.map (fun _ => "Suspicious URL pattern found")
  ⟨(t1 ++ t2).isEmpty, t1 ++ t2⟩

/-- `SecurityScanner._check_file_headers`: executable magic numbers at
offset 0 of the raw (not lowercased) content, in an if/elif chain. -/
def check_file_headers (content : List Nat) : CheckResult :=
  if content.length < 4 then ⟨true, []⟩
  else
    let header := content.take 16
    if (asciiBytes "MZ").isPrefixOf header then
      ⟨false, ["Windows executable detected"]⟩
    else if ([127] ++ asciiBytes "ELF").isPrefixOf header then
      ⟨false, ["Linux executable detected"]⟩
    else if ([254, 237, 250, 206]).isPrefixOf header ∨
        ([206, 250, 237, 254]).isPrefixOf header then
      ⟨false, ["macOS executable detected"]⟩
    else if ([202, 254, 186, 190]).isPrefixOf header then
      ⟨false, ["Java class file detected"]⟩
    else ⟨true, []⟩

/-- Count of printable-ASCII bytes, from
`SecurityScanner._calculate_text_ratio`. -/
def printableCount (content : List Nat) : Nat :=
  (content.filter (fun b => 32 ≤ b ∧ b ≤ 126)).length

/-- `SecurityScanner._check_embedded_content`.  The Python float test
`text_ratio > 0.3` is modelled exactly on the rationals as
`10 * printable > 3 * length` (the empty file yields ratio 0 in both). -/
def check_embedded_content (content : List Nat) (mimeType : String) :
    CheckResult :=
  if strStartsWith mimeType "image/" = true then
    let t1 : List String :=
      if containsPat (asciiBytes "<script") (bytesLower content) then
        ["Script content found in image file"]
      else []
    let t2 : List String :=
      if 3 * content.length < 10 * printableCount content then
        ["Unusual text content ratio in image"]
      else []
    ⟨(t1 ++ t2).isEmpty, t1 ++ t2⟩
  else if strStartsWith mimeType "video/" = true then
    if containsPat (asciiBytes "<script") (bytesLower content) ∨
        containsPat (asciiBytes "javascript") (bytesLower content) then
      ⟨false, ["Script content found in video file"]⟩
    else ⟨true, []⟩
  else ⟨true, []⟩

/-- Result of `SecurityScanner.scan_file` (the scan-details blob, which
only feeds logging, is not modelled). -/
structure ScanResult where
  safe : Bool
  threats_detected : List String
  risk_level : RiskLevel
deriving DecidableEq, Repr

/-- The `result` value `scan_file` starts from. -/
def initialScanResult : ScanResult :=
  ⟨true, [], .low⟩

/-- The shape shared by every check block in `scan_file`: when the check
is unsafe, clear `safe`, extend the threat list, and update the risk
level. -/
def flagStep (c : CheckResult) (upd : RiskLevel → RiskLevel)
    (r : ScanResult) : ScanResult :=
  if c.safe then r
  else ⟨false, r.threats_detected ++ c.threats, upd r.risk_level⟩

/-- `scan_file`, MIME step: on an unsafe MIME check, flag and set the
risk to high. -/
def scanStepMime (mimeType : String) (r : ScanResult) : ScanResult :=
  flagStep (check_mime_type mimeType) (fun _ => .high) r

/-- `scan_file`, filename-extension step (skipped when no filename was
supplied). -/
def scanStepExt (filename : Option String) (r : ScanResult) : ScanResult :=
  match filename with
  | none => r
  | some fn => flagStep (check_file_extension fn) (fun _ => .high) r

/-- `scan_file`, content-pattern step: raises the risk to medium only
from low. -/
def scanStepPatterns (content : List Nat) (r : ScanResult) : ScanResult :=
  flagStep (check_suspicious_patterns content)
    (fun l => if l = .low then .medium else l) r

/-- `scan_file`, header step. -/
def scanStepHeaders (content : List Nat) (r : ScanResult) : ScanResult :=
  flagStep (check_file_headers content) (fun _ => .high) r

/-- `scan_file`, embedded-content step: raises the risk to medium from
low or medium. -/
def scanStepEmbedded (content : List Nat) (mimeType : String)
    (r : ScanResult) : ScanResult :=
  flagStep (check_embedded_content content mimeType)
    (fun l => if l = .low ∨ l = .medium then .medium else l) r

/-- `SecurityScanner.scan_file`.  `sniff` stands for libmagic
(`_detect_mime_type`), used only when no MIME type is supplied. -/
def scan_file (sniff : List Nat → String) (content : List Nat)
    (filename : Option String) (mimeType : Option String) : ScanResult :=
  let mt := match mimeType with
    | some m => m
    | none => sniff content
  scanStepEmbedded content mt
    (scanStepHeaders content
      (scanStepPatterns content
        (scanStepExt filename
          (scanStepMime mt initialScanResult))))

/-! ## File validator (`src/utils/file_validator.py`) -/

/-- The configuration values consumed by `FileValidator` (from
`src/config/settings.py`). -/
structure ValidatorConfig where
  allowed_image_extensions : List String
  allowed_video_extensions : List String
  max_image_size : Nat
  max_video_size : Nat
deriving Repr

/-- The defaults of `config/settings.py`. -/
def defaultConfig : ValidatorConfig :=
  ⟨["jpg", "jpeg", "png", "gif"], ["mp4", "mov", "avi"], 10485760, 52428800⟩

/-- The `file_info` dictionary returned on a passing validation. -/
structure FileInfo where
  filename : String
  file_type : String
  file_extension : String
  mime_type : String
  file_size : Nat
deriving DecidableEq, Repr

/-- Result of `FileValidator.validate_file` (`file_info` is `none` for
the initial empty dictionary). -/
structure VResult where
  valid : Bool
  errors : List String
  file_info : Option FileInfo
  security_passed : Bool
deriving DecidableEq, Repr

/-- `FileValidator._detect_file_type`. -/
def detect_file_type (cfg : ValidatorConfig) (extension : String) :
    Option String :=
  if extension ∈ cfg.allowed_image_extensions then some "image"
  else if extension ∈ cfg.allowed_video_extensions then some "video"
  else none

/-- `FileValidator._validate_file_size`: `none` when valid, otherwise
the error message. -/
def validate_file_size (cfg : ValidatorConfig) (file_size : Nat)
    (file_type : String) : Option String :=
  if file_type = "image" ∨ file_type = "video" then
    let max_size :=
      if file_type = "image" then cfg.max_image_size else cfg.max_video_size
    if max_size < file_size then
      some ("File too large: " ++ toString file_size ++ " bytes (max: " ++
        toString max_size ++ " bytes)")
    else if file_size = 0 then some "File is empty"
    else none
  else some "Unknown file type"

/-- The hard-coded `expected_mimes` table inside
`FileValidator._validate_mime_type`. -/
def expected_mimes (file_type extension : String) : Option (List String) :=
  if file_type = "image" then
    if extension = "jpg" then some ["image/jpeg"]
    else if extension = "jpeg" then some ["image/jpeg"]
    else if extension = "png" then some ["image/png"]
    else if extension = "gif" then some ["image/gif"]
    else none
  else if file_type = "video" then
    if extension = "mp4" then some ["video/mp4", "video/quicktime"]
    else if extension = "mov" then some ["video/quicktime"]
    else if extension = "avi" then some ["video/x-msvideo", "video/avi"]
    else none
  else none

/-- A single-quote character, for rendering Python list reprs. -/
def sq : String := (Char.ofNat 39).toString

/-- Python `repr` of a list of strings, as interpolated into the
MIME-mismatch message. -/
def pyStrList (xs : List String) : String :=
  "[" ++ joinSep ", " (xs.map (fun s => sq ++ s ++ sq)) ++ "]"

/-- The MIME-mismatch error text of `FileValidator._validate_mime_type`. -/
def mimeMismatchMsg (mimeType : String) (expected : List String) : String :=
  "MIME type mismatch: got " ++ mimeType ++ ", expected one of " ++
    pyStrList expected

/-- `FileValidator._validate_mime_type`: `none` when the sniffed MIME is
whitelisted for the extension, otherwise the error message. -/
def validate_mime_type (mimeType file_type extension : String) :
    Option String :=
  if file_type ≠ "image" ∧ file_type ≠ "video" then
    some ("Unknown file type: " ++ file_type)
  else
    match expected_mimes file_type extension with
    | none => some ("Unsupported extension for " ++ file_type ++ ": " ++
        extension)
    | some expected =>
        if mimeType ∈ expected then none
        else some (mimeMismatchMsg mimeType expected)

/-- The validator's own suspicious header patterns
(`FileValidator._validate_security`). -/
def validatorSuspiciousPatterns : List (List Nat) :=
  [ asciiBytes "<script"
  , asciiBytes "javascript:"
  , asciiBytes "vbscript:"
  , asciiBytes "onload="
  , asciiBytes "onerror="
  , asciiBytes "<?php"
  , asciiBytes "<%"
  , asciiBytes "#!/bin/"
  , asciiBytes "#!/usr/bin/" ]

/-- The image-specific script patterns
(`FileValidator._validate_image_security`). -/
def validatorScriptPatterns : List (List Nat) :=
  [ asciiBytes "<script"
  , asciiBytes "javascript"
  , asciiBytes "eval("
  , asciiBytes "document."
  , asciiBytes "window." ]

/-- `FileValidator._validate_image_security`: first matching script
pattern over the whole lowercased content, `none` when clean. -/
def validate_image_security (content : List Nat) : Option String :=
  match validatorScriptPatterns.find?
      (fun pat => containsPat pat (bytesLower content)) with
  | some pat =>
      some ("Potentially malicious content in image: " ++ decodeAscii pat)
  | none => none

/-- `FileValidator._validate_video_security`. -/
def validate_video_security (content : List Nat) : Option String :=
  if content.length < 1000 then some "Video file suspiciously small"
  else none

/-- `FileValidator._validate_security`: suspicious patterns in the first
1KB (lowercased), then the MIME-specific check. -/
def validate_security (content : List Nat) (mimeType : String) :
    Option String :=
  match validatorSuspiciousPatterns.find?
      (fun pat => containsPat pat (bytesLower (content.take 1024))) with
  | some pat => some ("Suspicious content detected: " ++ decodeAscii pat)
  | none =>
      if strStartsWith mimeType "image/" = true then
        validate_image_security content
      else if strStartsWith mimeType "video/" = true then
        validate_video_security content
      else none

/-- The external collaborators of `FileValidator`: werkzeug's
`secure_filename` and libmagic's buffer sniffing (`_get_mime_type`,
whose exception fallback is folded into the oracle). -/
structure ValidatorEnv where
  secure_filename : String → String
  sniff_mime : List Nat → String

/-- The error message for an expected-type mismatch in `validate_file`. -/
def expectedTypeMsg (expected_type : Option String) (detected : String) :
    String :=
  "Expected " ++ expected_type.getD "" ++ " file, got " ++ detected

/-- `FileValidator.validate_file`: the short-circuiting phase cascade.
The validator never receives a caller-declared MIME type; the optional
`expected_type` argument is the expected category ("image"/"video"),
`none` on the upload path. -/
def validate_file (env : ValidatorEnv) (cfg : ValidatorConfig)
    (content : List Nat) (filename : String)
    (expected_type : Option String) : VResult :=
  if filename = "" then ⟨false, ["No file provided"], none, false⟩
  else
    let fname := env.secure_filename filename
    if fname = "" then ⟨false, ["Invalid filename"], none, false⟩
    else
      let extension := extOf fname
      if extension = "" then ⟨false, ["File has no extension"], none, false⟩
      else
        match detect_file_type cfg extension with
        | none =>
            ⟨false, ["Unsupported file extension: " ++ extension], none,
              false⟩
        | some detected =>
            if (match expected_type with
                | some t => t != detected
                | none => false) then
              ⟨false, [expectedTypeMsg expected_type detected], none, false⟩
            else if content = [] then
              ⟨false, ["File is empty"], none, false⟩
            else
              match validate_file_size cfg content.length detected with
              | some err => ⟨false, [err], none, false⟩
              | none =>
                  let mimeType := env.sniff_mime content
                  match validate_mime_type mimeType detected extension with
                  | some err => ⟨false, [err], none, false⟩
                  | none =>
                      match validate_security content mimeType with
                      | some err => ⟨false, [err], none, false⟩
                      | none =>
                          ⟨true, [],
                            some ⟨fname, detected, extension, mimeType,
                              content.length⟩, true⟩

/-! ## Storage backend (`src/utils/file_storage.py`)

The physical store is an association list from paths to byte contents.
OS-level I/O faults (the `except` branches around `os.remove`) are
modelled by an explicit list of faulting paths. -/

/-- The filesystem: stored files as (path, content) pairs. -/
abbrev FS := List (String × List Nat)

/-- `os.path.exists`. -/
def fsExists (fs : FS) (p : String) : Bool :=
  fs.any (fun e => e.1 == p)

/-- `open(p, 'rb').read()` (empty for a missing path; callers guard with
`fsExists`). -/
def fsRead (fs : FS) (p : String) : List Nat :=
  ((fs.find? (fun e => e.1 == p)).map Prod.snd).getD []

/-- `os.path.getsize`. -/
def fsSize (fs : FS) (p : String) : Nat :=
  (fsRead fs p).length

/-- `os.remove`. -/
def fsRemove (fs : FS) (p : String) : FS :=
  fs.filter (fun e => e.1 != p)

/-- `open(p, 'wb').write(content)` (overwriting). -/
def fsWrite (fs : FS) (p : String) (content : List Nat) : FS :=
  fsRemove fs p ++ [(p, content)]

/-- The result dictionary of `FileStorage.delete_file`. -/
structure DeleteResult where
  success : Bool
  file_size_freed : Nat
  error : Option String
deriving DecidableEq, Repr

/-- `FileStorage.delete_file`.  An existing path that is in `faults`
raises inside `os.remove`, landing in the `except` branch (failure with
the exception text); otherwise removal succeeds and the post-removal
existence re-check passes.  A missing path is reported as success with
0 bytes freed (and the informational note the source stores in
`result['error']`). -/
def delete_file (faults : List String) (fs : FS) (p : String) :
    DeleteResult × FS :=
  if fsExists fs p then
    if p ∈ faults then (⟨false, 0, some "OS error during deletion"⟩, fs)
    else (⟨true, fsSize fs p, none⟩, fsRemove fs p)
  else (⟨true, 0, some "File does not exist"⟩, fs)

/-! ## Registry data model (`src/models/`)

Fields not consulted by any claim (image dimensions, video duration,
upload timestamps, uploader IP, session id, the structured details
blobs, and the record timestamps) are omitted. -/

/-- A `media_files` row (`src/models/media_file.py`). -/
structure MediaFileR where
  id : Nat
  account_id : Nat
  original_filename : String
  stored_filename : String
  file_path : String
  file_size : Nat
  file_type : String
  mime_type : String
  file_extension : String
  file_hash : String
  cleanup_status : String
  cleanup_scheduled_at : Option Nat
  cleanup_completed_at : Option Nat
  cleanup_error : Option String
  is_active : Bool
  is_validated : Bool
  validation_error : Option String
deriving DecidableEq, Repr

/-- `MediaFile.mark_cleanup_completed`. -/
def mark_cleanup_completed (now : Nat) (mf : MediaFileR) : MediaFileR :=
  { mf with
      cleanup_status := "published_and_removed"
      cleanup_completed_at := some now
      is_active := false }

/-- A `file_validation_log` row (`src/models/validation_log.py`). -/
structure FileValidationLogR where
  media_file_id : Nat
  validation_type : String
  validation_result : Bool
  error_message : Option String
deriving DecidableEq, Repr

/-- A `file_cleanup_log` row (`src/models/cleanup_log.py`). -/
structure FileCleanupLogR where
  media_file_id : Nat
  cleanup_trigger : String
  cleanup_success : Bool
  error_message : Option String
  file_size_freed : Option Nat
deriving DecidableEq, Repr

/-! ## Scheduled cleanup (`src/tasks/cleanup_tasks.py`) -/

/-- The selection filter of `cleanup_scheduled_files`:
`cleanup_status == 'pending' AND cleanup_scheduled_at <= cutoff AND
is_active`.  A row with NULL `cleanup_scheduled_at` is never selected
(the SQL comparison is unknown). -/
def cleanupSel (now : Nat) (mf : MediaFileR) : Bool :=
  mf.cleanup_status == "pending" &&
    (match mf.cleanup_scheduled_at with
     | some t => decide (t ≤ now)
     | none => false) &&
    mf.is_active

/-- Per-item outcome of `_cleanup_single_file`: the mutated row, the
appended cleanup-log row, and the result dictionary's flag and
`space_freed`. -/
structure CleanupItemResult where
  file : MediaFileR
  log : FileCleanupLogR
  success : Bool
  space_freed : Nat
deriving DecidableEq, Repr

/-- `CleanupTasks._cleanup_single_file`. -/
def cleanup_single_file (faults : List String) (now : Nat) (fs : FS)
    (mf : MediaFileR) : CleanupItemResult × FS :=
  let dr := delete_file faults fs mf.file_path
  if dr.1.success then
    (⟨mark_cleanup_completed now mf,
      ⟨mf.id, "scheduled", true, none, some dr.1.file_size_freed⟩,
      true, dr.1.file_size_freed⟩, dr.2)
  else
    let err := dr.1.error.getD "Unknown deletion error"
    (⟨{ mf with cleanup_error := some err },
      ⟨mf.id, "scheduled", false, some err, none⟩,
      false, 0⟩, dr.2)

/-- The per-item loop of `cleanup_scheduled_files`: each selected row is
processed in order against the evolving filesystem; a failed item only
contributes its error and never stops the loop. -/
def cleanupBatch (faults : List String) (now : Nat) (fs : FS) :
    List MediaFileR → List CleanupItemResult × FS
  | [] => ([], fs)
  | mf :: rest =>
      let r := cleanup_single_file faults now fs mf
      let tail := cleanupBatch faults now r.2 rest
      (r.1 :: tail.1, tail.2)

/-- Outcome of one run of the scheduled-cleanup task.  `processed`
holds the post-run states of exactly the selected rows (in selection
order); rows outside the selection are untouched by the loop. -/
structure CleanupRunResult where
  selected : List MediaFileR
  processed : List CleanupItemResult
  fs : FS
  cleanup_logs : List FileCleanupLogR
deriving Repr

/-- `CleanupTasks.cleanup_scheduled_files`: select the pending, due,
active rows in a bounded batch and process them item by item. -/
def cleanup_scheduled_files (batch_size : Nat) (faults : List String)
    (now : Nat) (registry : List MediaFileR) (fs : FS)
    (clogs : List FileCleanupLogR) : CleanupRunResult :=
  let selected := (registry.filter (cleanupSel now)).take batch_size
  let run := cleanupBatch faults now fs selected
  ⟨selected, run.1, run.2, clogs ++ run.1.map (fun r => r.log)⟩

/-! ## Validation task (`src/tasks/validation_tasks.py`) -/

/-- Result shape shared by the task's integrity/content/security
sub-checks. -/
structure ContentCheck where
  valid : Bool
  error : Option String
deriving DecidableEq, Repr

/-- External collaborators of the validation task: hashlib digests,
PIL image parsing, video parsing, libmagic, and the scan-enabled flag. -/
structure ValidationEnv where
  hashFn : List Nat → String
  imageCheck : List Nat → ContentCheck
  videoCheck : List Nat → ContentCheck
  sniff : List Nat → String
  scanEnabled : Bool

/-- `ValidationTasks._validate_file_integrity`: recompute the digest of
the on-disk bytes and compare with the stored one. -/
def validate_file_integrity (env : ValidationEnv) (fs : FS)
    (mf : MediaFileR) : ContentCheck :=
  if env.hashFn (fsRead fs mf.file_path) == mf.file_hash then ⟨true, none⟩
  else ⟨false, some "File hash mismatch - file may be corrupted"⟩

/-- `ValidationTasks._validate_file_content`: kind-specific structural
parse of the on-disk bytes. -/
def validate_file_content (env : ValidationEnv) (fs : FS)
    (mf : MediaFileR) : ContentCheck :=
  if mf.file_type = "image" then
    let c := env.imageCheck (fsRead fs mf.file_path)
    if c.valid then ⟨true, none⟩
    else ⟨false, some (c.error.getD "Image validation failed")⟩
  else if mf.file_type = "video" then
    let c := env.videoCheck (fsRead fs mf.file_path)
    if c.valid then ⟨true, none⟩
    else ⟨false, some (c.error.getD "Video validation failed")⟩
  else ⟨false, some ("Unknown file type: " ++ mf.file_type)⟩

/-- `ValidationTasks._validate_file_security`: scan the on-disk bytes
with the stored filename and MIME type. -/
def validate_file_security (env : ValidationEnv) (fs : FS)
    (mf : MediaFileR) : ContentCheck :=
  let s := scan_file env.sniff (fsRead fs mf.file_path)
    (some mf.original_filename) (some mf.mime_type)
  if s.safe then ⟨true, none⟩
  else ⟨false, some "Security threats detected"⟩

/-- Outcome of `_validate_single_file`: the (possibly mutated) row, the
validation-log rows appended during the call, and the returned result
dictionary's flag and error. -/
structure SingleValidationResult where
  file : MediaFileR
  new_logs : List FileValidationLogR
  success : Bool
  error : Option String
deriving DecidableEq, Repr

/-- `ValidationTasks._validate_single_file` (the non-raising paths; the
`except` handler, which is the only place that sets `validation_error`
and logs a `validation_error` record, is outside this pure model). -/
def validate_single_file (env : ValidationEnv) (fs : FS)
    (mf : MediaFileR) : SingleValidationResult :=
  if ¬ fsExists fs mf.file_path then
    ⟨mf, [⟨mf.id, "file_existence", false, some "File not found on disk"⟩],
      false, some "File not found on disk"⟩
  else if ¬ (validate_file_integrity env fs mf).valid then
    ⟨mf, [], false, some "File integrity validation failed"⟩
  else if ¬ (validate_file_content env fs mf).valid then
    ⟨mf, [], false, some "File content validation failed"⟩
  else if env.scanEnabled ∧ ¬ (validate_file_security env fs mf).valid then
    ⟨mf, [], false, some "File security validation failed"⟩
  else
    ⟨{ mf with is_validated := true, validation_error := none },
      [⟨mf.id, "complete_validation", true, none⟩], true, none⟩

/-! ## Admission pipeline (`src/routes/upload.py`) -/

/-- External collaborators and failure injections of the upload route:
the validator's oracles, hashlib, the scanner flag and its libmagic, the
uuid/timestamp-generated stored name and date-bucketed path, a storage
I/O failure (`save_file_content` reporting no success), and an exception
raised during the post-write database steps (insert/flush/log/commit).
Metadata extraction (PIL/ffmpeg) only fills the omitted dimension
fields and is not modelled. -/
structure UploadEnv where
  venv : ValidatorEnv
  hashFn : List Nat → String
  scanEnabled : Bool
  sniff : List Nat → String
  stored_filename : String
  file_path : String
  storage_fails : Bool
  db_fails : Bool

/-- Observable outcome of one POST /upload request: HTTP status, error
code, dedup flag, returned asset id, the committed registry and logs,
the filesystem, the id counter, and the trace of storage deletions the
handler issued. -/
structure UploadResult where
  status : Nat
  error_code : Option String
  duplicate_detected : Bool
  file_id : Option Nat
  registry : List MediaFileR
  validation_logs : List FileValidationLogR
  fs : FS
  next_id : Nat
  storage_deletes : List String
deriving Repr

/-- The `MediaFile(...)` row constructed by `upload_file` on the
non-duplicate path: inserted validated, active, and pending. -/
def inserted_media_file (env : UploadEnv) (fi : FileInfo)
    (file_hash : String) (next_id account_id : Nat) : MediaFileR :=
  { id := next_id
    account_id := account_id
    original_filename := fi.filename
    stored_filename := env.stored_filename
    file_path := env.file_path
    file_size := fi.file_size
    file_type := fi.file_type
    mime_type := fi.mime_type
    file_extension := fi.file_extension
    file_hash := file_hash
    cleanup_status := "pending"
    cleanup_scheduled_at := none
    cleanup_completed_at := none
    cleanup_error := none
    is_active := true
    is_validated := true
    validation_error := none }

/-- The write-and-insert tail of `upload_file`, entered when no active
duplicate was found: save to storage, insert the row and its
validation log, commit.  An exception after the write (`db_fails`)
lands in the generic handler, which only rolls the session back — the
handler contains no storage deletion, so the written file stays and
`storage_deletes` is empty on every path. -/
def uploadStore (env : UploadEnv) (fi : FileInfo) (file_hash : String)
    (registry : List MediaFileR) (vlogs : List FileValidationLogR)
    (fs : FS) (next_id : Nat) (content : List Nat) (account_id : Nat) :
    UploadResult :=
  if env.storage_fails then
    ⟨500, some "STORAGE_FAILED", false, none, registry, vlogs, fs,
      next_id, []⟩
  else
    let fs2 := fsWrite fs env.file_path content
    let mf := inserted_media_file env fi file_hash next_id account_id
    if env.db_fails then
      ⟨500, some "UPLOAD_FAILED", false, none, registry, vlogs, fs2,
        next_id, []⟩
    else
      ⟨201, none, false, some next_id, registry ++ [mf],
        vlogs ++ [⟨next_id, "complete", true, none⟩], fs2, next_id + 1, []⟩

/-- `upload_file` (`src/routes/upload.py`): validate, optionally scan,
hash, dedup lookup scoped to (account, hash) — `.first()` modelled as
the earliest-inserted matching row — then store and insert. -/
def upload_file (env : UploadEnv) (cfg : ValidatorConfig)
    (registry : List MediaFileR) (vlogs : List FileValidationLogR)
    (fs : FS) (next_id : Nat) (filename : String) (content : List Nat)
    (account_id : Nat) : UploadResult :=
  if filename = "" then
    ⟨400, some "NO_FILE_SELECTED", false, none, registry, vlogs, fs,
      next_id, []⟩
  else
    let vr := validate_file env.venv cfg content filename none
    match vr.file_info with
    | none =>
        ⟨400, some "VALIDATION_FAILED", false, none, registry, vlogs, fs,
          next_id, []⟩
    | some fi =>
        if ¬ vr.valid then
          ⟨400, some "VALIDATION_FAILED", false, none, registry, vlogs,
            fs, next_id, []⟩
        else if env.scanEnabled ∧
            ¬ (scan_file env.sniff content (some filename)
                (some fi.mime_type)).safe then
          ⟨400, some "SECURITY_SCAN_FAILED", false, none, registry, vlogs,
            fs, next_id, []⟩
        else
          let file_hash := env.hashFn content
          match (registry.filter (fun a =>
              a.account_id == account_id && a.file_hash == file_hash)).head? with
          | some e =>
              if e.is_active then
                ⟨200, none, true, some e.id, registry, vlogs, fs, next_id,
                  []⟩
              else
                uploadStore env fi file_hash registry vlogs fs next_id
                  content account_id
          | none =>
              uploadStore env fi file_hash registry vlogs fs next_id
                content account_id

/-! ## Helper lemmas -/

lemma check_mime_type_safe_eq (m : String) :
    (check_mime_type m).safe = (check_mime_type m).threats.isEmpty := rfl

lemma check_file_extension_safe_eq (fn : String) :
    (check_file_extension fn).safe =
      (check_file_extension fn).threats.isEmpty := rfl

lemma check_suspicious_patterns_safe_eq (c : List Nat) :
    (check_suspicious_patterns c).safe =
      (check_suspicious_patterns c).threats.isEmpty := rfl

lemma check_file_headers_safe_eq (c : List Nat) :
    (check_file_headers c).safe =
      (check_file_headers c).threats.isEmpty := by
  unfold check_file_headers
  dsimp only
  repeat' split
  all_goals rfl

lemma check_embedded_content_safe_eq (c : List Nat) (m : String) :
    (check_embedded_content c m).safe =
      (check_embedded_content c m).threats.isEmpty := by
  unfold check_embedded_content
  dsimp only
  repeat' split
  all_goals rfl

lemma flagStep_safe_false (c : CheckResult) (u : RiskLevel → RiskLevel)
    (r : ScanResult) (h : r.safe = false) :
    (flagStep c u r).safe = false := by
  unfold flagStep
  split <;> simp [h]

lemma flagStep_threats_ne (c : CheckResult) (u : RiskLevel → RiskLevel)
    (r : ScanResult) (h : r.threats_detected ≠ []) :
    (flagStep c u r).threats_detected ≠ [] := by
  unfold flagStep
  split
  · exact h
  · simp [List.append_eq_nil, h]

lemma flagStep_fired (c : CheckResult) (u : RiskLevel → RiskLevel)
    (r : ScanResult) (h : c.safe = false) :
    flagStep c u r =
      ⟨false, r.threats_detected ++ c.threats, u r.risk_level⟩ := by
  unfold flagStep
  rw [h]
  simp

lemma flagStep_inv (c : CheckResult) (u : RiskLevel → RiskLevel)
    (r : ScanResult) (hc : c.safe = c.threats.isEmpty)
    (hr : r.safe = r.threats_detected.isEmpty) :
    (flagStep c u r).safe = (flagStep c u r).threats_detected.isEmpty := by
  unfold flagStep
  split
  · exact hr
  · next hns =>
      have hne : c.threats ≠ [] := by
        rw [hc] at hns
        simpa [List.isEmpty_iff] using hns
      simp [List.isEmpty_iff, List.append_eq_nil, hne]

lemma fsExists_fsRemove (fs : FS) (p : String) :
    fsExists (fsRemove fs p) p = false := by
  simp [fsExists, fsRemove, List.any_eq_true, List.mem_filter]

/-! ## Claim theorems -/

/-- C6: the storage delete operation is idempotent.  A missing path is
reported as success (`result['success'] = True`, the operation is not
treated as an error) with 0 bytes freed; an existing, non-faulting path
is removed and its pre-delete size returned; deleting it a second time
is again success with 0 bytes freed and no further change. -/
theorem delete_file_idempotent (faults : List String) (fs : FS)
    (p : String) :
    (fsExists fs p = false →
      delete_file faults fs p = (⟨true, 0, some "File does not exist"⟩, fs)) ∧
    (fsExists fs p = true → p ∉ faults →
      (delete_file faults fs p).1.success = true ∧
      (delete_file faults fs p).1.file_size_freed = fsSize fs p ∧
      (delete_file faults fs p).2 = fsRemove fs p ∧
      fsExists (delete_file faults fs p).2 p = false ∧
      delete_file faults (delete_file faults fs p).2 p =
        (⟨true, 0, some "File does not exist"⟩, (delete_file faults fs p).2)) := by
  constructor
  · intro h
    unfold delete_file
    simp [h]
  · intro h hp
    unfold delete_file
    simp only [h, if_true, hp, if_neg, if_pos]
    refine ⟨rfl, rfl, rfl, fsExists_fsRemove fs p, ?_⟩
    simp [fsExists_fsRemove fs p]

/-- Witness for C6 at a concrete one-file store. -/
theorem delete_file_idempotent_witness :
    fsExists [("2025/01/a.png", [1, 2, 3])] "2025/01/a.png" = true ∧
    (delete_file [] [("2025/01/a.png", [1, 2, 3])] "2025/01/a.png").1.success
      = true ∧
    (delete_file [] [("2025/01/a.png", [1, 2, 3])] "2025/01/a.png").1.file_size_freed
      = fsSize [("2025/01/a.png", [1, 2, 3])] "2025/01/a.png" ∧
    fsExists (delete_file [] [("2025/01/a.png", [1, 2, 3])] "2025/01/a.png").2
      "2025/01/a.png" = false ∧
    (delete_file []
      (delete_file [] [("2025/01/a.png", [1, 2, 3])] "2025/01/a.png").2
      "2025/01/a.png").1.success = true := by
  have h := (delete_file_idempotent [] [("2025/01/a.png", [1, 2, 3])]
    "2025/01/a.png").2 (by decide) (by simp)
  exact ⟨by decide, h.1, h.2.1, h.2.2.2.1, by rw [h.2.2.2.2]⟩

/-- C8: scanning any content whose supplied MIME type is an image type
and which contains the `<script` marker (case-insensitively) reports
unsafe, at least one threat, and a risk level of at least medium. -/
theorem scan_file_flags_script_in_image (sniff : List Nat → String)
    (content : List Nat) (filename : Option String) (m : String)
    (him : strStartsWith m "image/" = true)
    (hs : containsPat (asciiBytes "<script") (bytesLower content) = true) :
    (scan_file sniff content filename (some m)).safe = false ∧
    (scan_file sniff content filename (some m)).threats_detected ≠ [] ∧
    RiskLevel.medium.rank ≤
      (scan_file sniff content filename (some m)).risk_level.rank := by
  have hem : (check_embedded_content content m).safe = false := by
    unfold check_embedded_content
    simp [him, hs]
  have hemne : (check_embedded_content content m).threats ≠ [] := by
    have := check_embedded_content_safe_eq content m
    rw [hem] at this
    simpa [List.isEmpty_iff] using this.symm
  have hsf : scan_file sniff content filename (some m) =
      scanStepEmbedded content m
        (scanStepHeaders content
          (scanStepPatterns content
            (scanStepExt filename (scanStepMime m initialScanResult)))) := rfl
  rw [hsf]
  unfold scanStepEmbedded
  rw [flagStep_fired _ _ _ hem]
  refine ⟨rfl, ?_, ?_⟩
  · intro hcontra
    exact hemne (List.append_eq_nil.mp hcontra).2
  · cases hrl : (scanStepHeaders content
      (scanStepPatterns content
        (scanStepExt filename (scanStepMime m initialScanResult)))).risk_level <;>
      simp [RiskLevel.rank]

/-- Witness for C8: a PNG-declared payload carrying a script tag. -/
theorem scan_file_flags_script_in_image_witness :
    (scan_file (fun _ => "application/octet-stream")
      (asciiBytes "<SCRipt>alert(1)") none (some "image/png")).safe = false ∧
    RiskLevel.medium.rank ≤
      (scan_file (fun _ => "application/octet-stream")
        (asciiBytes "<SCRipt>alert(1)") none
        (some "image/png")).risk_level.rank := by
  have h := scan_file_flags_script_in_image
    (fun _ => "application/octet-stream") (asciiBytes "<SCRipt>alert(1)")
    none "image/png" (by decide) (by decide)
  exact ⟨h.1, h.2.2⟩

/-- The MIME type `scan_file` works with: the supplied one, else the
sniffed one. -/
def scanMime (sniff : List Nat → String) (content : List Nat)
    (mimeType : Option String) : String :=
  match mimeType with
  | some m => m
  | none => sniff content

/-- `scan_file` intermediate state after the MIME check. -/
def scanChain1 (mt : String) : ScanResult :=
  scanStepMime mt initialScanResult

/-- `scan_file` intermediate state after the filename check. -/
def scanChain2 (filename : Option String) (mt : String) : ScanResult :=
  scanStepExt filename (scanChain1 mt)

/-- `scan_file` intermediate state after the content-pattern check. -/
def scanChain3 (content : List Nat) (filename : Option String)
    (mt : String) : ScanResult :=
  scanStepPatterns content (scanChain2 filename mt)

/-- `scan_file` intermediate state after the header check. -/
def scanChain4 (content : List Nat) (filename : Option String)
    (mt : String) : ScanResult :=
  scanStepHeaders content (scanChain3 content filename mt)

/-- `scan_file` final state, after the embedded-content check. -/
def scanChain5 (content : List Nat) (filename : Option String)
    (mt : String) : ScanResult :=
  scanStepEmbedded content mt (scanChain4 content filename mt)

lemma scanStepExt_safe_false (filename : Option String) (r : ScanResult)
    (h : r.safe = false) : (scanStepExt filename r).safe = false := by
  cases filename
  · exact h
  · exact flagStep_safe_false _ _ _ h

lemma rank_le_high (l : RiskLevel) (h : l ≠ RiskLevel.critical) :
    l.rank ≤ RiskLevel.high.rank := by
  cases l <;> simp_all [RiskLevel.rank]

lemma flagStep_risk_mem (c : CheckResult) (u : RiskLevel → RiskLevel)
    (r : ScanResult) :
    (flagStep c u r).risk_level = r.risk_level ∨
      (flagStep c u r).risk_level = u r.risk_level := by
  unfold flagStep
  split
  · exact Or.inl rfl
  · exact Or.inr rfl

lemma riskStepHigh (c : CheckResult) (r : ScanResult)
    (h : r.risk_level ≠ RiskLevel.critical) :
    r.risk_level.rank ≤
        (flagStep c (fun _ => RiskLevel.high) r).risk_level.rank ∧
      (flagStep c (fun _ => RiskLevel.high) r).risk_level ≠
        RiskLevel.critical := by
  rcases flagStep_risk_mem c (fun _ => RiskLevel.high) r with hh | hh <;>
    rw [hh]
  · exact ⟨le_rfl, h⟩
  · exact ⟨rank_le_high _ h, by simp⟩

lemma riskStepPat (c : CheckResult) (r : ScanResult)
    (h : r.risk_level ≠ RiskLevel.critical) :
    r.risk_level.rank ≤
        (flagStep c (fun l => if l = RiskLevel.low then RiskLevel.medium
          else l) r).risk_level.rank ∧
      (flagStep c (fun l => if l = RiskLevel.low then RiskLevel.medium
        else l) r).risk_level ≠ RiskLevel.critical := by
  rcases flagStep_risk_mem c
      (fun l => if l = RiskLevel.low then RiskLevel.medium else l) r with
    hh | hh <;> rw [hh]
  · exact ⟨le_rfl, h⟩
  · cases hr : r.risk_level <;> simp_all [RiskLevel.rank]

lemma riskStepEmb (c : CheckResult) (r : ScanResult)
    (h : r.risk_level ≠ RiskLevel.critical) :
    r.risk_level.rank ≤
        (flagStep c (fun l => if l = RiskLevel.low ∨ l = RiskLevel.medium
          then RiskLevel.medium else l) r).risk_level.rank ∧
      (flagStep c (fun l => if l = RiskLevel.low ∨ l = RiskLevel.medium
        then RiskLevel.medium else l) r).risk_level ≠
        RiskLevel.critical := by
  rcases flagStep_risk_mem c
      (fun l => if l = RiskLevel.low ∨ l = RiskLevel.medium then
        RiskLevel.medium else l) r with hh | hh <;> rw [hh]
  · exact ⟨le_rfl, h⟩
  · cases hr : r.risk_level <;> simp_all [RiskLevel.rank]

lemma scanStepExt_inv (filename : Option String) (r : ScanResult)
    (hr : r.safe = r.threats_detected.isEmpty) :
    (scanStepExt filename r).safe =
      (scanStepExt filename r).threats_detected.isEmpty := by
  cases filename
  · exact hr
  · exact flagStep_inv _ _ _ (check_file_extension_safe_eq _) hr

lemma scanStepExt_risk (filename : Option String) (r : ScanResult)
    (h : r.risk_level ≠ RiskLevel.critical) :
    r.risk_level.rank ≤ (scanStepExt filename r).risk_level.rank ∧
      (scanStepExt filename r).risk_level ≠ RiskLevel.critical := by
  cases filename
  · exact ⟨le_rfl, h⟩
  · exact riskStepHigh _ _ h

lemma check_threats_ne_of_unsafe {c : CheckResult}
    (hc : c.safe = c.threats.isEmpty) (h : c.safe = false) :
    c.threats ≠ [] := by
  rw [h] at hc
  simpa [List.isEmpty_iff] using hc.symm

lemma flagStep_fired_len (c : CheckResult) (u : RiskLevel → RiskLevel)
    (r : ScanResult) (hc : c.safe = c.threats.isEmpty)
    (h : c.safe = false) :
    (flagStep c u r).safe = false ∧
      r.threats_detected.length < (flagStep c u r).threats_detected.length := by
  rw [flagStep_fired _ _ _ h]
  refine ⟨rfl, ?_⟩
  have := check_threats_ne_of_unsafe hc h
  have hpos : 0 < c.threats.length := List.length_pos.mpr this
  simp only [List.length_append]
  omega

/-- C9: invariants of the scanner result.  The final result is safe iff
the threat list is empty; each individual check that fires clears the
safe flag (settling the final verdict) and appends at least one threat;
and the risk level never drops across the check sequence. -/
theorem scan_file_invariant (sniff : List Nat → String) (content : List Nat)
    (filename : Option String) (mimeType : Option String) :
    scan_file sniff content filename mimeType =
      scanChain5 content filename (scanMime sniff content mimeType) ∧
    ∀ mt : String,
      ((scanChain5 content filename mt).safe = true ↔
        (scanChain5 content filename mt).threats_detected = []) ∧
      ((check_mime_type mt).safe = false →
        (scanChain1 mt).safe = false ∧
        initialScanResult.threats_detected.length <
          (scanChain1 mt).threats_detected.length ∧
        (scanChain5 content filename mt).safe = false) ∧
      (∀ fn, filename = some fn → (check_file_extension fn).safe = false →
        (scanChain2 filename mt).safe = false ∧
        (scanChain1 mt).threats_detected.length <
          (scanChain2 filename mt).threats_detected.length ∧
        (scanChain5 content filename mt).safe = false) ∧
      ((check_suspicious_patterns content).safe = false →
        (scanChain3 content filename mt).safe = false ∧
        (scanChain2 filename mt).threats_detected.length <
          (scanChain3 content filename mt).threats_detected.length ∧
        (scanChain5 content filename mt).safe = false) ∧
      ((check_file_headers content).safe = false →
        (scanChain4 content filename mt).safe = false ∧
        (scanChain3 content filename mt).threats_detected.length <
          (scanChain4 content filename mt).threats_detected.length ∧
        (scanChain5 content filename mt).safe = false) ∧
      ((check_embedded_content content mt).safe = false →
        (scanChain5 content filename mt).safe = false ∧
        (scanChain4 content filename mt).threats_detected.length <
          (scanChain5 content filename mt).threats_detected.length) ∧
      (initialScanResult.risk_level.rank ≤ (scanChain1 mt).risk_level.rank ∧
        (scanChain1 mt).risk_level.rank ≤
          (scanChain2 filename mt).risk_level.rank ∧
        (scanChain2 filename mt).risk_level.rank ≤
          (scanChain3 content filename mt).risk_level.rank ∧
        (scanChain3 content filename mt).risk_level.rank ≤
          (scanChain4 content filename mt).risk_level.rank ∧
        (scanChain4 content filename mt).risk_level.rank ≤
          (scanChain5 content filename mt).risk_level.rank) := by
  constructor
  · rfl
  intro mt
  have inv1 : (scanChain1 mt).safe = (scanChain1 mt).threats_detected.isEmpty :=
    flagStep_inv _ _ _ (check_mime_type_safe_eq mt) rfl
  have inv2 : (scanChain2 filename mt).safe =
      (scanChain2 filename mt).threats_detected.isEmpty :=
    scanStepExt_inv _ _ inv1
  have inv3 : (scanChain3 content filename mt).safe =
      (scanChain3 content filename mt).threats_detected.isEmpty :=
    flagStep_inv _ _ _ (check_suspicious_patterns_safe_eq content) inv2
  have inv4 : (scanChain4 content filename mt).safe =
      (scanChain4 content filename mt).threats_detected.isEmpty :=
    flagStep_inv _ _ _ (check_file_headers_safe_eq content) inv3
  have inv5 : (scanChain5 content filename mt).safe =
      (scanChain5 content filename mt).threats_detected.isEmpty :=
    flagStep_inv _ _ _ (check_embedded_content_safe_eq content mt) inv4
  have prop2 : ∀ r, r = scanChain1 mt → r.safe = false →
      (scanChain5 content filename mt).safe = false := by
    intro r hr h
    subst hr
    exact flagStep_safe_false _ _ _
      (flagStep_safe_false _ _ _
        (flagStep_safe_false _ _ _ (scanStepExt_safe_false _ _ h)))
  have prop3 : ∀ r, r = scanChain2 filename mt → r.safe = false →
      (scanChain5 content filename mt).safe = false := by
    intro r hr h
    subst hr
    exact flagStep_safe_false _ _ _
      (flagStep_safe_false _ _ _ (flagStep_safe_false _ _ _ h))
  have prop4 : ∀ r, r = scanChain3 content filename mt → r.safe = false →
      (scanChain5 content filename mt).safe = false := by
    intro r hr h
    subst hr
    exact flagStep_safe_false _ _ _ (flagStep_safe_false _ _ _ h)
  have prop5 : ∀ r, r = scanChain4 content filename mt → r.safe = false →
      (scanChain5 content filename mt).safe = false := by
    intro r hr h
    subst hr
    exact flagStep_safe_false _ _ _ h
  have risk1 := riskStepHigh (check_mime_type mt) initialScanResult
    (by simp [initialScanResult])
  have risk2 := scanStepExt_risk filename (scanChain1 mt) risk1.2
  have risk3 := riskStepPat (check_suspicious_patterns content)
    (scanChain2 filename mt) risk2.2
  have risk4 := riskStepHigh (check_file_headers content)
    (scanChain3 content filename mt) risk3.2
  have risk5 := riskStepEmb (check_embedded_content content mt)
    (scanChain4 content filename mt) risk4.2
  refine ⟨?_, ?_, ?_, ?_, ?_, ?_, risk1.1, risk2.1, risk3.1, risk4.1,
    risk5.1⟩
  · rw [inv5, List.isEmpty_iff]
  · intro h
    have hf := flagStep_fired_len (check_mime_type mt)
      (fun _ => RiskLevel.high) initialScanResult
      (check_mime_type_safe_eq mt) h
    exact ⟨hf.1, hf.2, prop2 _ rfl hf.1⟩
  · intro fn hfn h
    have hf := flagStep_fired_len (check_file_extension fn)
      (fun _ => RiskLevel.high) (scanChain1 mt)
      (check_file_extension_safe_eq fn) h
    have h2 : (scanChain2 filename mt).safe = false ∧
        (scanChain1 mt).threats_detected.length <
          (scanChain2 filename mt).threats_detected.length := by
      rw [hfn]
      exact hf
    exact ⟨h2.1, h2.2, prop3 _ rfl h2.1⟩
  · intro h
    have hf := flagStep_fired_len (check_suspicious_patterns content)
      (fun l => if l = RiskLevel.low then RiskLevel.medium else l)
      (scanChain2 filename mt) (check_suspicious_patterns_safe_eq content) h
    exact ⟨hf.1, hf.2, prop4 _ rfl hf.1⟩
  · intro h
    have hf := flagStep_fired_len (check_file_headers content)
      (fun _ => RiskLevel.high) (scanChain3 content filename mt)
      (check_file_headers_safe_eq content) h
    exact ⟨hf.1, hf.2, prop5 _ rfl hf.1⟩
  · intro h
    exact flagStep_fired_len (check_embedded_content content mt)
      (fun l => if l = RiskLevel.low ∨ l = RiskLevel.medium then
        RiskLevel.medium else l)
      (scanChain4 content filename mt)
      (check_embedded_content_safe_eq content mt) h

/-- Witness for C9: a blocked shell MIME type, a dangerous filename
extension and a script marker fire three distinct checks. -/
theorem scan_file_invariant_witness :
    (scanChain5 (asciiBytes "<script>") (some "run.exe")
      "application/x-shellscript").safe = false ∧
    initialScanResult.threats_detected.length <
      (scanChain1 "application/x-shellscript").threats_detected.length ∧
    (scanChain1 "application/x-shellscript").threats_detected.length <
      (scanChain2 (some "run.exe")
        "application/x-shellscript").threats_detected.length ∧
    (scanChain2 (some "run.exe")
        "application/x-shellscript").threats_detected.length <
      (scanChain3 (asciiBytes "<script>") (some "run.exe")
        "application/x-shellscript").threats_detected.length ∧
    initialScanResult.risk_level.rank ≤
      (scanChain5 (asciiBytes "<script>") (some "run.exe")
        "application/x-shellscript").risk_level.rank := by
  have h := (scan_file_invariant (fun _ => "") (asciiBytes "<script>")
    (some "run.exe") (some "application/x-shellscript")).2
    "application/x-shellscript"
  obtain ⟨hiff, hmime, hext, hpat, hhdr, hemb, hrk⟩ := h
  have h1 := hmime (by decide)
  have h2 := hext "run.exe" rfl (by decide)
  have h3 := hpat (by decide)
  exact ⟨h1.2.2, h1.2.1, h2.2.1, h3.2.1,
    le_trans hrk.1 (le_trans hrk.2.1 (le_trans hrk.2.2.1
      (le_trans hrk.2.2.2.1 hrk.2.2.2.2)))⟩

lemma detect_file_type_eq (cfg : ValidatorConfig) (ext dt : String)
    (h : detect_file_type cfg ext = some dt) :
    dt = "image" ∨ dt = "video" := by
  unfold detect_file_type at h
  split at h
  · exact Or.inl (Option.some.inj h).symm
  · split at h
    · exact Or.inr (Option.some.inj h).symm
    · cases h

/-- C10: validator result invariants.  The result is valid iff the error
list is empty; a valid result carries `security_passed` and a fully
populated `file_info` whose fields agree with the inputs; and an invalid
result reports exactly the first failing phase's reason, phase by phase
down the cascade. -/
theorem validate_file_invariant (env : ValidatorEnv) (cfg : ValidatorConfig)
    (content : List Nat) (filename : String)
    (expected_type : Option String) :
    ((validate_file env cfg content filename expected_type).valid = true ↔
      (validate_file env cfg content filename expected_type).errors = []) ∧
    ((validate_file env cfg content filename expected_type).valid = true →
      (validate_file env cfg content filename expected_type).security_passed
          = true ∧
      ∃ fi, (validate_file env cfg content filename expected_type).file_info
          = some fi ∧
        fi.filename = env.secure_filename filename ∧ fi.filename ≠ "" ∧
        fi.file_extension = extOf fi.filename ∧ fi.file_extension ≠ "" ∧
        detect_file_type cfg fi.file_extension = some fi.file_type ∧
        fi.mime_type = env.sniff_mime content ∧
        fi.file_size = content.length ∧ 0 < fi.file_size) ∧
    (filename = "" →
      (validate_file env cfg content filename expected_type).errors
        = ["No file provided"]) ∧
    (filename ≠ "" → env.secure_filename filename = "" →
      (validate_file env cfg content filename expected_type).errors
        = ["Invalid filename"]) ∧
    (filename ≠ "" → env.secure_filename filename ≠ "" →
      extOf (env.secure_filename filename) = "" →
      (validate_file env cfg content filename expected_type).errors
        = ["File has no extension"]) ∧
    (filename ≠ "" → env.secure_filename filename ≠ "" →
      extOf (env.secure_filename filename) ≠ "" →
      detect_file_type cfg (extOf (env.secure_filename filename)) = none →
      (validate_file env cfg content filename expected_type).errors
        = ["Unsupported file extension: " ++
            extOf (env.secure_filename filename)]) ∧
    (∀ dt, filename ≠ "" → env.secure_filename filename ≠ "" →
      extOf (env.secure_filename filename) ≠ "" →
      detect_file_type cfg (extOf (env.secure_filename filename)) = some dt →
      ∀ t, expected_type = some t → t ≠ dt →
      (validate_file env cfg content filename expected_type).errors
        = [expectedTypeMsg expected_type dt]) ∧
    (∀ dt, filename ≠ "" → env.secure_filename filename ≠ "" →
      extOf (env.secure_filename filename) ≠ "" →
      detect_file_type cfg (extOf (env.secure_filename filename)) = some dt →
      (expected_type = none ∨ expected_type = some dt) → content = [] →
      (validate_file env cfg content filename expected_type).errors
        = ["File is empty"]) ∧
    (∀ dt e, filename ≠ "" → env.secure_filename filename ≠ "" →
      extOf (env.secure_filename filename) ≠ "" →
      detect_file_type cfg (extOf (env.secure_filename filename)) = some dt →
      (expected_type = none ∨ expected_type = some dt) → content ≠ [] →
      validate_file_size cfg content.length dt = some e →
      (validate_file env cfg content filename expected_type).errors = [e]) ∧
    (∀ dt e, filename ≠ "" → env.secure_filename filename ≠ "" →
      extOf (env.secure_filename filename) ≠ "" →
      detect_file_type cfg (extOf (env.secure_filename filename)) = some dt →
      (expected_type = none ∨ expected_type = some dt) → content ≠ [] →
      validate_file_size cfg content.length dt = none →
      validate_mime_type (env.sniff_mime content) dt
        (extOf (env.secure_filename filename)) = some e →
      (validate_file env cfg content filename expected_type).errors = [e]) ∧
    (∀ dt e, filename ≠ "" → env.secure_filename filename ≠ "" →
      extOf (env.secure_filename filename) ≠ "" →
      detect_file_type cfg (extOf (env.secure_filename filename)) = some dt →
      (expected_type = none ∨ expected_type = some dt) → content ≠ [] →
      validate_file_size cfg content.length dt = none →
      validate_mime_type (env.sniff_mime content) dt
        (extOf (env.secure_filename filename)) = none →
      validate_security content (env.sniff_mime content) = some e →
      (validate_file env cfg content filename expected_type).errors = [e]) := by
  refine ⟨?_, ?_, ?_, ?_, ?_, ?_, ?_, ?_, ?_, ?_, ?_⟩
  · unfold validate_file
    dsimp only
    repeat' split
    all_goals simp
  · unfold validate_file
    dsimp only
    repeat' split
    all_goals intro hv
    all_goals simp_all [List.length_pos]
  · intro h0
    simp [validate_file, h0]
  · intro h0 h1
    simp [validate_file, h0, h1]
  · intro h0 h1 h2
    simp [validate_file, h0, h1, h2]
  · intro h0 h1 h2 h3
    simp [validate_file, h0, h1, h2, h3]
  · intro dt h0 h1 h2 h3 t ht htne
    simp [validate_file, h0, h1, h2, h3, ht, htne]
  · intro dt h0 h1 h2 h3 hexp hc
    rcases hexp with hexp | hexp <;>
      simp [validate_file, h0, h1, h2, h3, hexp, hc]
  · intro dt e h0 h1 h2 h3 hexp hc hsz
    rcases hexp with hexp | hexp <;>
      simp [validate_file, h0, h1, h2, h3, hexp, hc, hsz]
  · intro dt e h0 h1 h2 h3 hexp hc hsz hmm
    rcases hexp with hexp | hexp <;>
      simp [validate_file, h0, h1, h2, h3, hexp, hc, hsz, hmm]
  · intro dt e h0 h1 h2 h3 hexp hc hsz hmm hsec
    rcases hexp with hexp | hexp <;>
      simp [validate_file, h0, h1, h2, h3, hexp, hc, hsz, hmm, hsec]

/-- Witness for C10 at a concrete passing and a concrete failing input. -/
theorem validate_file_invariant_witness :
    ((validate_file ⟨fun s => s, fun _ => "image/png"⟩ defaultConfig
        [1, 2, 3] "a.png" none).valid = true ↔
      (validate_file ⟨fun s => s, fun _ => "image/png"⟩ defaultConfig
        [1, 2, 3] "a.png" none).errors = []) ∧
    (validate_file ⟨fun s => s, fun _ => "image/png"⟩ defaultConfig
      [1, 2, 3] "" none).errors = ["No file provided"] := by
  have h := validate_file_invariant ⟨fun s => s, fun _ => "image/png"⟩
    defaultConfig [1, 2, 3] "a.png" none
  have h2 := validate_file_invariant ⟨fun s => s, fun _ => "image/png"⟩
    defaultConfig [1, 2, 3] "" none
  exact ⟨h.1, h2.2.2.1 rfl⟩

/-- C7 (amended): for a candidate whose filename carries an allowed
extension and whose content is non-empty and within its category's size
ceiling, a sniffed MIME type outside the extension's whitelist makes the
validator return `valid = false` with exactly the MIME-mismatch error.
(Empty or oversized content short-circuits earlier with that phase's own
error, and the validator never consults a caller-declared content
type — it sniffs the bytes.) -/
theorem validator_rejects_mime_mismatch (env : ValidatorEnv)
    (cfg : ValidatorConfig) (content : List Nat) (filename : String)
    (expected_type : Option String) (dt : String) (wlist : List String)
    (h0 : filename ≠ "") (h1 : env.secure_filename filename ≠ "")
    (h2 : extOf (env.secure_filename filename) ≠ "")
    (h3 : detect_file_type cfg (extOf (env.secure_filename filename))
      = some dt)
    (hexp : expected_type = none ∨ expected_type = some dt)
    (hc : content ≠ [])
    (hsz : validate_file_size cfg content.length dt = none)
    (hwl : expected_mimes dt (extOf (env.secure_filename filename))
      = some wlist)
    (hmm : env.sniff_mime content ∉ wlist) :
    (validate_file env cfg content filename expected_type).valid = false ∧
    (validate_file env cfg content filename expected_type).errors =
      [mimeMismatchMsg (env.sniff_mime content) wlist] := by
  have hvm : validate_mime_type (env.sniff_mime content) dt
      (extOf (env.secure_filename filename)) =
        some (mimeMismatchMsg (env.sniff_mime content) wlist) := by
    rcases detect_file_type_eq cfg _ dt h3 with hdt | hdt <;>
      subst hdt <;> simp [validate_mime_type, hwl, hmm]
  rcases hexp with hexp | hexp <;>
    simp [validate_file, h0, h1, h2, h3, hexp, hc, hsz, hvm]

/-- Witness for the amended C7: a ".png"-named three-byte file whose
bytes sniff as a Windows executable MIME type. -/
theorem validator_rejects_mime_mismatch_witness :
    (validate_file ⟨fun s => s, fun _ => "application/x-dosexec"⟩
      defaultConfig [77, 90, 144] "a.png" none).valid = false ∧
    (validate_file ⟨fun s => s, fun _ => "application/x-dosexec"⟩
      defaultConfig [77, 90, 144] "a.png" none).errors =
      [mimeMismatchMsg "application/x-dosexec" ["image/png"]] := by
  have h := validator_rejects_mime_mismatch
    ⟨fun s => s, fun _ => "application/x-dosexec"⟩ defaultConfig
    [77, 90, 144] "a.png" none "image" ["image/png"]
    (by decide) (by decide) (by decide) (by decide) (Or.inl rfl)
    (by decide) (by decide) (by decide) (by decide)
  exact h

/-- C7 counterexample: the claim as stated fails on empty content.  An
empty file named "a.png" has an allowed extension and a sniffed MIME
type outside the png whitelist, yet the validator reports "File is
empty", not a MIME-mismatch error. -/
theorem validator_mime_mismatch_cex :
    extOf "a.png" = "png" ∧
    detect_file_type defaultConfig "png" = some "image" ∧
    expected_mimes "image" "png" = some ["image/png"] ∧
    "application/x-dosexec" ∉ ["image/png"] ∧
    (validate_file ⟨fun s => s, fun _ => "application/x-dosexec"⟩
      defaultConfig [] "a.png" none).valid = false ∧
    (validate_file ⟨fun s => s, fun _ => "application/x-dosexec"⟩
      defaultConfig [] "a.png" none).errors = ["File is empty"] ∧
    mimeMismatchMsg "application/x-dosexec" ["image/png"] ∉
      (validate_file ⟨fun s => s, fun _ => "application/x-dosexec"⟩
        defaultConfig [] "a.png" none).errors := by
  refine ⟨by decide, by decide, by decide, by decide, by decide, by decide,
    ?_⟩
  decide

/-- C2 (amended): how `_validate_single_file` actually records failing
checks.  A failing existence check leaves the row untouched (so
`validated` stays false and `validation_error` keeps its previous value,
it is NOT set) and appends a `file_existence` record with
`passed = false` and the error text.  Failing integrity, content, and
security checks also leave the row untouched — `validated` stays false
and `validation_error` is not set — and append NO validation record at
all; the failure is only reported in the returned result dictionary.
(Only the exception handler, outside this pure model, sets
`validation_error` and logs a `validation_error` record.) -/
theorem validation_task_failure_paths (env : ValidationEnv) (fs : FS)
    (mf : MediaFileR) :
    (fsExists fs mf.file_path = false →
      validate_single_file env fs mf =
        ⟨mf,
          [⟨mf.id, "file_existence", false, some "File not found on disk"⟩],
          false, some "File not found on disk"⟩) ∧
    (fsExists fs mf.file_path = true →
      (validate_file_integrity env fs mf).valid = false →
      validate_single_file env fs mf =
        ⟨mf, [], false, some "File integrity validation failed"⟩) ∧
    (fsExists fs mf.file_path = true →
      (validate_file_integrity env fs mf).valid = true →
      (validate_file_content env fs mf).valid = false →
      validate_single_file env fs mf =
        ⟨mf, [], false, some "File content validation failed"⟩) ∧
    (fsExists fs mf.file_path = true →
      (validate_file_integrity env fs mf).valid = true →
      (validate_file_content env fs mf).valid = true →
      env.scanEnabled = true →
      (validate_file_security env fs mf).valid = false →
      validate_single_file env fs mf =
        ⟨mf, [], false, some "File security validation failed"⟩) ∧
    ((validate_single_file env fs mf).success = false →
      (validate_single_file env fs mf).file.is_validated = mf.is_validated ∧
      (validate_single_file env fs mf).file.validation_error =
        mf.validation_error) := by
  refine ⟨?_, ?_, ?_, ?_, ?_⟩
  · intro h
    simp [validate_single_file, h]
  · intro h hi
    simp [validate_single_file, h, hi]
  · intro h hi hc
    simp [validate_single_file, h, hi, hc]
  · intro h hi hc hs hsec
    simp [validate_single_file, h, hi, hc, hs, hsec]
  · intro hfail
    unfold validate_single_file at hfail ⊢
    repeat' split at hfail
    all_goals simp_all

/-- Witness for the amended C2: a stored row whose on-disk bytes hash
differently from the recorded digest — the integrity check fails, the
row is returned untouched, and no validation record is appended. -/
theorem validation_task_failure_paths_witness :
    (validate_file_integrity
      ⟨fun _ => "recomputed-digest", fun _ => ⟨true, none⟩,
        fun _ => ⟨true, none⟩, fun _ => "", false⟩
      [("2025/01/s.png", [1, 2, 3])]
      ⟨1, 7, "a.png", "s.png", "2025/01/s.png", 3, "image", "image/png",
        "png", "stored-digest", "pending", none, none, none, true, false,
        none⟩).valid = false ∧
    validate_single_file
      ⟨fun _ => "recomputed-digest", fun _ => ⟨true, none⟩,
        fun _ => ⟨true, none⟩, fun _ => "", false⟩
      [("2025/01/s.png", [1, 2, 3])]
      ⟨1, 7, "a.png", "s.png", "2025/01/s.png", 3, "image", "image/png",
        "png", "stored-digest", "pending", none, none, none, true, false,
        none⟩ =
      ⟨⟨1, 7, "a.png", "s.png", "2025/01/s.png", 3, "image", "image/png",
          "png", "stored-digest", "pending", none, none, none, true, false,
          none⟩,
        [], false, some "File integrity validation failed"⟩ := by
  have h := (validation_task_failure_paths
    ⟨fun _ => "recomputed-digest", fun _ => ⟨true, none⟩,
      fun _ => ⟨true, none⟩, fun _ => "", false⟩
    [("2025/01/s.png", [1, 2, 3])]
    ⟨1, 7, "a.png", "s.png", "2025/01/s.png", 3, "image", "image/png",
      "png", "stored-digest", "pending", none, none, none, true, false,
      none⟩).2.1 (by decide) (by decide)
  exact ⟨by decide, h⟩

/-- C2 counterexample: the claim says any failing check sets a non-null
`validation_error` on the asset and appends a ValidationRecord for that
check with `passed = false`.  At this concrete input the integrity check
fails, yet the returned row still has `validation_error = none` and the
call appends no validation record whatsoever. -/
theorem validation_task_failure_cex :
    (validate_file_integrity
      ⟨fun _ => "recomputed-digest", fun _ => ⟨true, none⟩,
        fun _ => ⟨true, none⟩, fun _ => "", false⟩
      [("p.png", [1, 2, 3])]
      ⟨1, 7, "a.png", "s.png", "p.png", 3, "image", "image/png",
        "png", "stored-digest", "pending", none, none, none, true, false,
        none⟩).valid = false ∧
    (validate_single_file
      ⟨fun _ => "recomputed-digest", fun _ => ⟨true, none⟩,
        fun _ => ⟨true, none⟩, fun _ => "", false⟩
      [("p.png", [1, 2, 3])]
      ⟨1, 7, "a.png", "s.png", "p.png", 3, "image", "image/png",
        "png", "stored-digest", "pending", none, none, none, true, false,
        none⟩).file.is_validated = false ∧
    (validate_single_file
      ⟨fun _ => "recomputed-digest", fun _ => ⟨true, none⟩,
        fun _ => ⟨true, none⟩, fun _ => "", false⟩
      [("p.png", [1, 2, 3])]
      ⟨1, 7, "a.png", "s.png", "p.png", 3, "image", "image/png",
        "png", "stored-digest", "pending", none, none, none, true, false,
        none⟩).file.validation_error = none ∧
    (validate_single_file
      ⟨fun _ => "recomputed-digest", fun _ => ⟨true, none⟩,
        fun _ => ⟨true, none⟩, fun _ => "", false⟩
      [("p.png", [1, 2, 3])]
      ⟨1, 7, "a.png", "s.png", "p.png", 3, "image", "image/png",
        "png", "stored-digest", "pending", none, none, none, true, false,
        none⟩).new_logs = [] := by
  refine ⟨by decide, by decide, by decide, by decide⟩

lemma cleanupBatch_length (faults : List String) (now : Nat) :
    ∀ (items : List MediaFileR) (fs : FS),
      (cleanupBatch faults now fs items).1.length = items.length := by
  intro items
  induction items with
  | nil => intro fs; rfl
  | cons b rest ih =>
      intro fs
      simp [cleanupBatch, ih]

lemma cleanupBatch_get (faults : List String) (now : Nat) :
    ∀ (items : List MediaFileR) (fs : FS) (i : Nat) (a : MediaFileR),
      items.get? i = some a →
      (cleanupBatch faults now fs items).1.get? i =
        some (cleanup_single_file faults now
          (cleanupBatch faults now fs (items.take i)).2 a).1 := by
  intro items
  induction items with
  | nil => intro fs i a h; simp at h
  | cons b rest ih =>
      intro fs i a h
      cases i with
      | zero =>
          simp only [List.get?_cons_zero, Option.some.injEq] at h
          subst h
          simp [cleanupBatch]
      | succ j =>
          simp only [List.get?_cons_succ] at h
          simp only [cleanupBatch, List.take_succ_cons, List.get?_cons_succ]
          exact ih _ j a h

lemma fsExists_iff (fs : FS) (p : String) :
    fsExists fs p = true ↔ ∃ e ∈ fs, e.1 = p := by
  unfold fsExists
  simp [List.any_eq_true]

lemma fsExists_fsRemove_ne (fs : FS) (q p : String) (h : p ≠ q) :
    fsExists (fsRemove fs q) p = fsExists fs p := by
  rw [Bool.eq_iff_iff, fsExists_iff, fsExists_iff]
  constructor
  · rintro ⟨e, he, hep⟩
    rw [fsRemove, List.mem_filter] at he
    exact ⟨e, he.1, hep⟩
  · rintro ⟨e, he, hep⟩
    refine ⟨e, ?_, hep⟩
    rw [fsRemove, List.mem_filter]
    exact ⟨he, by simp [bne_iff_ne, hep, h]⟩

lemma cleanup_single_file_fs (faults : List String) (now : Nat) (fs : FS)
    (mf : MediaFileR) :
    (cleanup_single_file faults now fs mf).2 = fs ∨
      (cleanup_single_file faults now fs mf).2 =
        fsRemove fs mf.file_path := by
  unfold cleanup_single_file delete_file
  repeat' split
  all_goals first
    | exact Or.inl rfl
    | exact Or.inr rfl

lemma cleanupBatch_fs_sub (faults : List String) (now : Nat) :
    ∀ (items : List MediaFileR) (fs : FS) (p : String),
      fsExists fs p = true →
      fsExists (cleanupBatch faults now fs items).2 p = false →
      p ∈ items.map (fun a => a.file_path) := by
  intro items
  induction items with
  | nil =>
      intro fs p h1 h2
      rw [show (cleanupBatch faults now fs []).2 = fs from rfl, h1] at h2
      cases h2
  | cons b rest ih =>
      intro fs p h1 h2
      by_cases hp : p = b.file_path
      · simp [hp]
      · have hfs1 : fsExists (cleanup_single_file faults now fs b).2 p
            = true := by
          rcases cleanup_single_file_fs faults now fs b with he | he <;>
            rw [he]
          · exact h1
          · rw [fsExists_fsRemove_ne _ _ _ hp]
            exact h1
        have hmem := ih (cleanup_single_file faults now fs b).2 p hfs1
          (by simpa [cleanupBatch] using h2)
        simp [hmem]

lemma fsSize_eq_zero (fs : FS) (p : String) (h : fsExists fs p = false) :
    fsSize fs p = 0 := by
  unfold fsSize fsRead
  cases hf : fs.find? (fun e => e.1 == p) with
  | none => simp [hf]
  | some e =>
      exfalso
      have hpred := List.find?_some hf
      have hmem := List.mem_of_find?_eq_some hf
      have hany : fsExists fs p = true := by
        unfold fsExists
        exact List.any_eq_true.mpr ⟨e, hmem, hpred⟩
      rw [hany] at h
      cases h

lemma cleanupSel_spec {now : Nat} {a : MediaFileR}
    (h : cleanupSel now a = true) :
    a.cleanup_status = "pending" ∧ a.is_active = true ∧
      ∃ t, a.cleanup_scheduled_at = some t ∧ t ≤ now := by
  unfold cleanupSel at h
  simp only [Bool.and_eq_true, beq_iff_eq] at h
  obtain ⟨⟨h1, h2⟩, h3⟩ := h
  refine ⟨h1, h3, ?_⟩
  cases hs : a.cleanup_scheduled_at with
  | none => rw [hs] at h2; cases h2
  | some t =>
      rw [hs] at h2
      exact ⟨t, rfl, by simpa using h2⟩

lemma selected_sel {now batch_size : Nat} {registry : List MediaFileR}
    {i : Nat} {a : MediaFileR}
    (h : ((registry.filter (cleanupSel now)).take batch_size).get? i
      = some a) :
    cleanupSel now a = true :=
  (List.mem_filter.mp (List.take_subset _ _ (List.get?_mem h))).2

/-- C4: per-item outcomes of a scheduled-cleanup run.  Every selected
item is processed (the processed list pairs up index-by-index with the
selection, whatever faults other items hit), its cleanup record lands in
the log table, and per item: a successful storage delete marks the row
inactive / `published_and_removed` / completed-now and logs a successful
record whose `bytes_freed` is the pre-delete file size, while a failed
delete leaves the row active and `pending` with the error recorded, logs
a failed record, and keeps the row eligible for any later run. -/
theorem cleanup_run_per_item (batch_size : Nat) (faults : List String)
    (now : Nat) (registry : List MediaFileR) (fs : FS)
    (clogs : List FileCleanupLogR) (i : Nat) (a : MediaFileR)
    (hsel : ((registry.filter (cleanupSel now)).take batch_size).get? i
      = some a) :
    (cleanup_scheduled_files batch_size faults now registry fs
        clogs).processed.length =
      (cleanup_scheduled_files batch_size faults now registry fs
        clogs).selected.length ∧
    (cleanup_scheduled_files batch_size faults now registry fs
        clogs).processed.get? i =
      some (cleanup_single_file faults now
        (cleanupBatch faults now fs
          (((registry.filter (cleanupSel now)).take batch_size).take i)).2
        a).1 ∧
    ∀ fsPre : FS,
      fsPre = (cleanupBatch faults now fs
        (((registry.filter (cleanupSel now)).take batch_size).take i)).2 →
      (cleanup_single_file faults now fsPre a).1.log ∈
        (cleanup_scheduled_files batch_size faults now registry fs
          clogs).cleanup_logs ∧
      ((a.file_path ∉ faults ∨ fsExists fsPre a.file_path = false) →
        (cleanup_single_file faults now fsPre a).1.file =
          mark_cleanup_completed now a ∧
        (cleanup_single_file faults now fsPre a).1.file.is_active = false ∧
        (cleanup_single_file faults now fsPre a).1.file.cleanup_status =
          "published_and_removed" ∧
        (cleanup_single_file faults now fsPre a).1.file.cleanup_completed_at
          = some now ∧
        (cleanup_single_file faults now fsPre a).1.log =
          ⟨a.id, "scheduled", true, none,
            some (fsSize fsPre a.file_path)⟩) ∧
      (a.file_path ∈ faults → fsExists fsPre a.file_path = true →
        (cleanup_single_file faults now fsPre a).1.file.is_active = true ∧
        (cleanup_single_file faults now fsPre a).1.file.cleanup_status =
          "pending" ∧
        (cleanup_single_file faults now fsPre a).1.file.cleanup_scheduled_at
          = a.cleanup_scheduled_at ∧
        (cleanup_single_file faults now fsPre a).1.file.cleanup_error =
          some "OS error during deletion" ∧
        (cleanup_single_file faults now fsPre a).1.log =
          ⟨a.id, "scheduled", false, some "OS error during deletion",
            none⟩ ∧
        ∀ later, now ≤ later →
          cleanupSel later (cleanup_single_file faults now fsPre a).1.file
            = true) := by
  obtain ⟨hpend, hact, t, hsched, htle⟩ := cleanupSel_spec (selected_sel hsel)
  refine ⟨cleanupBatch_length faults now _ fs, ?_, ?_⟩
  · exact cleanupBatch_get faults now _ fs i a hsel
  · intro fsPre hfsPre
    refine ⟨?_, ?_, ?_⟩
    · have hget : (cleanup_scheduled_files batch_size faults now registry fs
          clogs).processed.get? i =
          some (cleanup_single_file faults now fsPre a).1 := by
        rw [hfsPre]
        exact cleanupBatch_get faults now _ fs i a hsel
      have hmem := List.get?_mem hget
      exact List.mem_append_right _
        (List.mem_map_of_mem (fun r => r.log) hmem)
    · intro hok
      have hdel : delete_file faults fsPre a.file_path =
          (⟨true, fsSize fsPre a.file_path, none⟩, fsRemove fsPre a.file_path)
          ∨ delete_file faults fsPre a.file_path =
          (⟨true, 0, some "File does not exist"⟩, fsPre) := by
        unfold delete_file
        rcases hok with hok | hok
        · by_cases hex : fsExists fsPre a.file_path = true
          · left
            simp [hex, hok]
          · right
            simp [hex]
        · right
          simp [hok]
      rcases hdel with hdel | hdel
      · unfold cleanup_single_file
        rw [hdel]
        simp [mark_cleanup_completed]
      · unfold cleanup_single_file
        rw [hdel]
        have hz : fsSize fsPre a.file_path = 0 := by
          rcases hok with hok | hok
          · by_cases hex : fsExists fsPre a.file_path = true
            · exfalso
              have : delete_file faults fsPre a.file_path =
                  (⟨true, fsSize fsPre a.file_path, none⟩,
                    fsRemove fsPre a.file_path) := by
                unfold delete_file
                simp [hex, hok]
              rw [this] at hdel
              have := congrArg (fun x => x.1.error) hdel
              simp at this
            · exact fsSize_eq_zero _ _ (by simpa using hex)
          · exact fsSize_eq_zero _ _ hok
        simp [mark_cleanup_completed, hz]
    · intro hfault hex
      have hdel : delete_file faults fsPre a.file_path =
          (⟨false, 0, some "OS error during deletion"⟩, fsPre) := by
        unfold delete_file
        simp [hex, hfault]
      unfold cleanup_single_file
      rw [hdel]
      refine ⟨by simp [hact], by simp [hpend], by simp, by simp, by simp,
        ?_⟩
      intro later hlater
      unfold cleanupSel
      simp [hpend, hact, hsched, Nat.le_trans htle hlater]

/-- Witness for C4: one due, pending, active asset; the delete succeeds
and the row is retired with a successful record for its 3 bytes. -/
theorem cleanup_run_per_item_witness :
    (cleanup_single_file [] 10 [("p", [1, 2, 3])]
      ⟨1, 7, "a.png", "s.png", "p", 3, "image", "image/png", "png", "h",
        "pending", some 5, none, none, true, true, none⟩).1.file.is_active
      = false ∧
    (cleanup_single_file [] 10 [("p", [1, 2, 3])]
      ⟨1, 7, "a.png", "s.png", "p", 3, "image", "image/png", "png", "h",
        "pending", some 5, none, none, true, true, none⟩).1.log =
      ⟨1, "scheduled", true, none, some 3⟩ ∧
    (cleanup_scheduled_files 100 [] 10
      [⟨1, 7, "a.png", "s.png", "p", 3, "image", "image/png", "png", "h",
        "pending", some 5, none, none, true, true, none⟩]
      [("p", [1, 2, 3])] []).processed.length = 1 := by
  have h := cleanup_run_per_item 100 [] 10
    [⟨1, 7, "a.png", "s.png", "p", 3, "image", "image/png", "png", "h",
      "pending", some 5, none, none, true, true, none⟩]
    [("p", [1, 2, 3])] [] 0
    ⟨1, 7, "a.png", "s.png", "p", 3, "image", "image/png", "png", "h",
      "pending", some 5, none, none, true, true, none⟩ (by decide)
  have h2 := (h.2.2 [("p", [1, 2, 3])] (by decide)).2.1
    (Or.inl (by simp))
  refine ⟨?_, ?_, ?_⟩
  · have := h2.2.1
    simpa using this
  · have := h2.2.2.2.2
    simpa using this
  · have := h.1
    simpa using this

/-- C5: a scheduled-cleanup run selects only pending, active, due rows,
at most `batch_size` of them; a row whose `cleanup_scheduled_at` lies in
the future (or is NULL) is never selected, and the run deletes no path
other than those of selected rows. -/
theorem cleanup_selection_bounded (batch_size : Nat) (faults : List String)
    (now : Nat) (registry : List MediaFileR) (fs : FS)
    (clogs : List FileCleanupLogR) :
    (cleanup_scheduled_files batch_size faults now registry fs
        clogs).selected.length ≤ batch_size ∧
    (∀ a ∈ (cleanup_scheduled_files batch_size faults now registry fs
        clogs).selected,
      a.cleanup_status = "pending" ∧ a.is_active = true ∧
        ∃ t, a.cleanup_scheduled_at = some t ∧ t ≤ now) ∧
    (∀ a ∈ registry, ∀ t, a.cleanup_scheduled_at = some t → now < t →
      a ∉ (cleanup_scheduled_files batch_size faults now registry fs
        clogs).selected) ∧
    (∀ p, fsExists fs p = true →
      fsExists (cleanup_scheduled_files batch_size faults now registry fs
        clogs).fs p = false →
      p ∈ (cleanup_scheduled_files batch_size faults now registry fs
        clogs).selected.map (fun x => x.file_path)) := by
  refine ⟨List.length_take_le _ _, ?_, ?_, ?_⟩
  · intro a ha
    exact cleanupSel_spec
      (List.mem_filter.mp (List.take_subset _ _ ha)).2
  · intro a _ t hsched hfut hmem
    obtain ⟨_, _, t2, hsched2, hle⟩ := cleanupSel_spec
      (List.mem_filter.mp (List.take_subset _ _ hmem)).2
    rw [hsched] at hsched2
    cases hsched2
    omega
  · intro p h1 h2
    exact cleanupBatch_fs_sub faults now _ fs p h1 h2

/-- Witness for C5: with one due and one future-scheduled row at
reference time 10, only the due row is selected and the future row is
untouched. -/
theorem cleanup_selection_bounded_witness :
    (cleanup_scheduled_files 100 [] 10
      [⟨1, 7, "a.png", "s.png", "p", 3, "image", "image/png", "png", "h",
          "pending", some 5, none, none, true, true, none⟩,
        ⟨2, 7, "b.png", "t.png", "q", 3, "image", "image/png", "png", "h2",
          "pending", some 99, none, none, true, true, none⟩]
      [("p", [1, 2, 3]), ("q", [4, 5, 6])] []).selected.length ≤ 100 ∧
    (⟨2, 7, "b.png", "t.png", "q", 3, "image", "image/png", "png", "h2",
        "pending", some 99, none, none, true, true, none⟩ : MediaFileR) ∉
      (cleanup_scheduled_files 100 [] 10
        [⟨1, 7, "a.png", "s.png", "p", 3, "image", "image/png", "png", "h",
            "pending", some 5, none, none, true, true, none⟩,
          ⟨2, 7, "b.png", "t.png", "q", 3, "image", "image/png", "png", "h2",
            "pending", some 99, none, none, true, true, none⟩]
        [("p", [1, 2, 3]), ("q", [4, 5, 6])] []).selected := by
  have h := cleanup_selection_bounded 100 [] 10
    [⟨1, 7, "a.png", "s.png", "p", 3, "image", "image/png", "png", "h",
        "pending", some 5, none, none, true, true, none⟩,
      ⟨2, 7, "b.png", "t.png", "q", 3, "image", "image/png", "png", "h2",
        "pending", some 99, none, none, true, true, none⟩]
    [("p", [1, 2, 3]), ("q", [4, 5, 6])] []
  refine ⟨h.1, ?_⟩
  exact h.2.2.1 _ (by simp) 99 rfl (by omega)

lemma fsExists_fsWrite (fs : FS) (p : String) (c : List Nat) :
    fsExists (fsWrite fs p c) p = true := by
  unfold fsExists fsWrite
  simp [List.any_append]

lemma upload_file_dup (env : UploadEnv) (cfg : ValidatorConfig)
    (registry : List MediaFileR) (vlogs : List FileValidationLogR)
    (fs : FS) (next_id : Nat) (filename : String) (content : List Nat)
    (account_id : Nat) (fi : FileInfo) (e : MediaFileR)
    (hfn : filename ≠ "")
    (hv : (validate_file env.venv cfg content filename none).valid = true)
    (hfi : (validate_file env.venv cfg content filename none).file_info
      = some fi)
    (hscan : env.scanEnabled = false ∨
      (scan_file env.sniff content (some filename)
        (some fi.mime_type)).safe = true)
    (hhead : (registry.filter (fun a => a.account_id == account_id &&
      a.file_hash == env.hashFn content)).head? = some e)
    (hact : e.is_active = true) :
    upload_file env cfg registry vlogs fs next_id filename content
      account_id =
      ⟨200, none, true, some e.id, registry, vlogs, fs, next_id, []⟩ := by
  rcases hscan with hs | hs <;>
    simp [upload_file, hfn, hfi, hv, hs, hhead, hact]

lemma upload_file_store (env : UploadEnv) (cfg : ValidatorConfig)
    (registry : List MediaFileR) (vlogs : List FileValidationLogR)
    (fs : FS) (next_id : Nat) (filename : String) (content : List Nat)
    (account_id : Nat) (fi : FileInfo)
    (hfn : filename ≠ "")
    (hv : (validate_file env.venv cfg content filename none).valid = true)
    (hfi : (validate_file env.venv cfg content filename none).file_info
      = some fi)
    (hscan : env.scanEnabled = false ∨
      (scan_file env.sniff content (some filename)
        (some fi.mime_type)).safe = true)
    (hdup : (registry.filter (fun a => a.account_id == account_id &&
        a.file_hash == env.hashFn content)).head? = none ∨
      ∃ e, (registry.filter (fun a => a.account_id == account_id &&
        a.file_hash == env.hashFn content)).head? = some e ∧
        e.is_active = false) :
    upload_file env cfg registry vlogs fs next_id filename content
      account_id =
      uploadStore env fi (env.hashFn content) registry vlogs fs next_id
        content account_id := by
  rcases hdup with hd | ⟨e, hd, hde⟩
  · rcases hscan with hs | hs <;>
      simp [upload_file, hfn, hfi, hv, hs, hd]
  · rcases hscan with hs | hs <;>
      simp [upload_file, hfn, hfi, hv, hs, hd, hde]

lemma uploadStore_ok (env : UploadEnv) (fi : FileInfo)
    (file_hash : String) (registry : List MediaFileR)
    (vlogs : List FileValidationLogR) (fs : FS) (next_id : Nat)
    (content : List Nat) (account_id : Nat)
    (hsf : env.storage_fails = false) (hdb : env.db_fails = false) :
    uploadStore env fi file_hash registry vlogs fs next_id content
      account_id =
      ⟨201, none, false, some next_id,
        registry ++ [inserted_media_file env fi file_hash next_id
          account_id],
        vlogs ++ [⟨next_id, "complete", true, none⟩],
        fsWrite fs env.file_path content, next_id + 1, []⟩ := by
  simp [uploadStore, hsf, hdb]

/-- C1 (amended): when a step after the storage write and before the
registry commit fails (the database insert, flush, validation-log insert
or commit raising), `upload_file` rolls the transaction back and answers
500 — but it issues NO compensating storage delete: the just-written
file remains in storage as an orphan (reclaimed only by the separate
orphaned-file cleanup task), and the handler's storage-deletion trace is
empty. -/
theorem upload_db_failure_leaves_orphan (env : UploadEnv)
    (cfg : ValidatorConfig) (registry : List MediaFileR)
    (vlogs : List FileValidationLogR) (fs : FS) (next_id : Nat)
    (filename : String) (content : List Nat) (account_id : Nat)
    (fi : FileInfo)
    (hfn : filename ≠ "")
    (hv : (validate_file env.venv cfg content filename none).valid = true)
    (hfi : (validate_file env.venv cfg content filename none).file_info
      = some fi)
    (hscan : env.scanEnabled = false ∨
      (scan_file env.sniff content (some filename)
        (some fi.mime_type)).safe = true)
    (hdup : (registry.filter (fun a => a.account_id == account_id &&
        a.file_hash == env.hashFn content)).head? = none ∨
      ∃ e, (registry.filter (fun a => a.account_id == account_id &&
        a.file_hash == env.hashFn content)).head? = some e ∧
        e.is_active = false)
    (hsf : env.storage_fails = false) (hdb : env.db_fails = true) :
    upload_file env cfg registry vlogs fs next_id filename content
      account_id =
      ⟨500, some "UPLOAD_FAILED", false, none, registry, vlogs,
        fsWrite fs env.file_path content, next_id, []⟩ ∧
    fsExists (upload_file env cfg registry vlogs fs next_id filename
      content account_id).fs env.file_path = true ∧
    (upload_file env cfg registry vlogs fs next_id filename content
      account_id).storage_deletes = [] := by
  have h1 := upload_file_store env cfg registry vlogs fs next_id filename
    content account_id fi hfn hv hfi hscan hdup
  have h2 : uploadStore env fi (env.hashFn content) registry vlogs fs
      next_id content account_id =
      ⟨500, some "UPLOAD_FAILED", false, none, registry, vlogs,
        fsWrite fs env.file_path content, next_id, []⟩ := by
    simp [uploadStore, hsf, hdb]
  rw [h1, h2]
  exact ⟨rfl, fsExists_fsWrite fs env.file_path content, rfl⟩

/-- Witness for the amended C1: a passing three-byte PNG upload whose
database insert raises. -/
theorem upload_db_failure_leaves_orphan_witness :
    upload_file
      ⟨⟨fun s => s, fun _ => "image/png"⟩, fun _ => "h", false,
        fun _ => "", "s.png", "2025/01/s.png", false, true⟩
      defaultConfig [] [] [] 1 "a.png" [1, 2, 3] 7 =
      ⟨500, some "UPLOAD_FAILED", false, none, [], [],
        fsWrite [] "2025/01/s.png" [1, 2, 3], 1, []⟩ ∧
    fsExists (upload_file
      ⟨⟨fun s => s, fun _ => "image/png"⟩, fun _ => "h", false,
        fun _ => "", "s.png", "2025/01/s.png", false, true⟩
      defaultConfig [] [] [] 1 "a.png" [1, 2, 3] 7).fs "2025/01/s.png"
      = true := by
  have h := upload_db_failure_leaves_orphan
    ⟨⟨fun s => s, fun _ => "image/png"⟩, fun _ => "h", false,
      fun _ => "", "s.png", "2025/01/s.png", false, true⟩
    defaultConfig [] [] [] 1 "a.png" [1, 2, 3] 7
    ⟨"a.png", "image", "png", "image/png", 3⟩
    (by decide) (by decide) (by decide) (Or.inl rfl) (Or.inl rfl)
    rfl rfl
  exact ⟨h.1, h.2.1⟩

/-- C1 counterexample: at this concrete input the storage write
succeeds, the database step fails, the upload answers 500 with an
unchanged registry — and the stored file is still present with no
storage delete issued, contradicting the claimed compensating delete. -/
theorem upload_no_compensating_delete_cex :
    (upload_file
      ⟨⟨fun s => s, fun _ => "image/png"⟩, fun _ => "h", false,
        fun _ => "", "s.png", "2025/01/s.png", false, true⟩
      defaultConfig [] [] [] 1 "a.png" [1, 2, 3] 7).status = 500 ∧
    (upload_file
      ⟨⟨fun s => s, fun _ => "image/png"⟩, fun _ => "h", false,
        fun _ => "", "s.png", "2025/01/s.png", false, true⟩
      defaultConfig [] [] [] 1 "a.png" [1, 2, 3] 7).registry = [] ∧
    fsExists (upload_file
      ⟨⟨fun s => s, fun _ => "image/png"⟩, fun _ => "h", false,
        fun _ => "", "s.png", "2025/01/s.png", false, true⟩
      defaultConfig [] [] [] 1 "a.png" [1, 2, 3] 7).fs "2025/01/s.png"
      = true ∧
    (upload_file
      ⟨⟨fun s => s, fun _ => "image/png"⟩, fun _ => "h", false,
        fun _ => "", "s.png", "2025/01/s.png", false, true⟩
      defaultConfig [] [] [] 1 "a.png" [1, 2, 3] 7).storage_deletes
      = [] := by
  refine ⟨by decide, by decide, by decide, by decide⟩

/-- C3 (amended): the dedup lookup is scoped to (owner, hash) and reuses
the earliest matching registry row only when that row is active.  When
the first match is active, admission returns its id with no state
change.  From a registry with no (owner, hash) match, admitting content
twice under one owner returns the same fresh id with no second write,
and admitting it under a different owner (with no match of its own)
yields the next, distinct id.  (When an inactive match precedes an
active one the lookup misses the active duplicate — see the
counterexample.) -/
theorem upload_dedup_scoped (env : UploadEnv) (cfg : ValidatorConfig)
    (registry : List MediaFileR) (vlogs : List FileValidationLogR)
    (fs : FS) (next_id : Nat) (filename : String) (content : List Nat)
    (fi : FileInfo)
    (hfn : filename ≠ "")
    (hv : (validate_file env.venv cfg content filename none).valid = true)
    (hfi : (validate_file env.venv cfg content filename none).file_info
      = some fi)
    (hscan : env.scanEnabled = false ∨
      (scan_file env.sniff content (some filename)
        (some fi.mime_type)).safe = true) :
    (∀ account_id e,
      (registry.filter (fun a => a.account_id == account_id &&
        a.file_hash == env.hashFn content)).head? = some e →
      e.is_active = true →
      upload_file env cfg registry vlogs fs next_id filename content
        account_id =
        ⟨200, none, true, some e.id, registry, vlogs, fs, next_id, []⟩) ∧
    (env.storage_fails = false → env.db_fails = false →
      ∀ owner, registry.filter (fun a => a.account_id == owner &&
          a.file_hash == env.hashFn content) = [] →
        upload_file env cfg registry vlogs fs next_id filename content
          owner =
          ⟨201, none, false, some next_id,
            registry ++ [inserted_media_file env fi (env.hashFn content)
              next_id owner],
            vlogs ++ [⟨next_id, "complete", true, none⟩],
            fsWrite fs env.file_path content, next_id + 1, []⟩ ∧
        upload_file env cfg
            (registry ++ [inserted_media_file env fi (env.hashFn content)
              next_id owner])
            (vlogs ++ [⟨next_id, "complete", true, none⟩])
            (fsWrite fs env.file_path content) (next_id + 1) filename
            content owner =
          ⟨200, none, true, some next_id,
            registry ++ [inserted_media_file env fi (env.hashFn content)
              next_id owner],
            vlogs ++ [⟨next_id, "complete", true, none⟩],
            fsWrite fs env.file_path content, next_id + 1, []⟩ ∧
        (∀ owner2, owner2 ≠ owner →
          registry.filter (fun a => a.account_id == owner2 &&
            a.file_hash == env.hashFn content) = [] →
          (upload_file env cfg
            (registry ++ [inserted_media_file env fi (env.hashFn content)
              next_id owner])
            (vlogs ++ [⟨next_id, "complete", true, none⟩])
            (fsWrite fs env.file_path content) (next_id + 1) filename
            content owner2).file_id = some (next_id + 1) ∧
          (upload_file env cfg
            (registry ++ [inserted_media_file env fi (env.hashFn content)
              next_id owner])
            (vlogs ++ [⟨next_id, "complete", true, none⟩])
            (fsWrite fs env.file_path content) (next_id + 1) filename
            content owner2).duplicate_detected = false ∧
          next_id + 1 ≠ next_id)) := by
  constructor
  · intro account_id e hhead hact
    exact upload_file_dup env cfg registry vlogs fs next_id filename
      content account_id fi e hfn hv hfi hscan hhead hact
  · intro hsf hdb owner hno
    have hfirst : upload_file env cfg registry vlogs fs next_id filename
        content owner =
        ⟨201, none, false, some next_id,
          registry ++ [inserted_media_file env fi (env.hashFn content)
            next_id owner],
          vlogs ++ [⟨next_id, "complete", true, none⟩],
          fsWrite fs env.file_path content, next_id + 1, []⟩ := by
      rw [upload_file_store env cfg registry vlogs fs next_id filename
        content owner fi hfn hv hfi hscan (Or.inl (by rw [hno]; rfl))]
      exact uploadStore_ok env fi (env.hashFn content) registry vlogs fs
        next_id content owner hsf hdb
    refine ⟨hfirst, ?_, ?_⟩
    · have hfilter2 : (registry ++ [inserted_media_file env fi
          (env.hashFn content) next_id owner]).filter
          (fun a => a.account_id == owner &&
            a.file_hash == env.hashFn content) =
          [inserted_media_file env fi (env.hashFn content) next_id
            owner] := by
        rw [List.filter_append, hno]
        simp [inserted_media_file]
      exact upload_file_dup env cfg _ _ _ _ filename content owner fi _
        hfn hv hfi hscan (by rw [hfilter2]; rfl) rfl
    · intro owner2 hne hno2
      have hfilter3 : (registry ++ [inserted_media_file env fi
          (env.hashFn content) next_id owner]).filter
          (fun a => a.account_id == owner2 &&
            a.file_hash == env.hashFn content) = [] := by
        rw [List.filter_append, hno2]
        simp [inserted_media_file, hne.symm]
      have h3 := upload_file_store env cfg _
        (vlogs ++ [⟨next_id, "complete", true, none⟩])
        (fsWrite fs env.file_path content) (next_id + 1) filename content
        owner2 fi hfn hv hfi hscan (Or.inl (by rw [hfilter3]; rfl))
      rw [h3, uploadStore_ok env fi (env.hashFn content) _ _ _ _ content
        owner2 hsf hdb]
      exact ⟨rfl, rfl, by omega⟩

/-- Witness for the amended C3: two admissions of the same bytes by
owner 7 share id 1 with one write; owner 8 then gets id 2. -/
theorem upload_dedup_scoped_witness :
    (upload_file
      ⟨⟨fun s => s, fun _ => "image/png"⟩, fun _ => "h", false,
        fun _ => "", "s.png", "2025/01/s.png", false, false⟩
      defaultConfig [] [] [] 1 "a.png" [1, 2, 3] 7).file_id = some 1 ∧
    (upload_file
      ⟨⟨fun s => s, fun _ => "image/png"⟩, fun _ => "h", false,
        fun _ => "", "s.png", "2025/01/s.png", false, false⟩
      defaultConfig
      (upload_file
        ⟨⟨fun s => s, fun _ => "image/png"⟩, fun _ => "h", false,
          fun _ => "", "s.png", "2025/01/s.png", false, false⟩
        defaultConfig [] [] [] 1 "a.png" [1, 2, 3] 7).registry
      (upload_file
        ⟨⟨fun s => s, fun _ => "image/png"⟩, fun _ => "h", false,
          fun _ => "", "s.png", "2025/01/s.png", false, false⟩
        defaultConfig [] [] [] 1 "a.png" [1, 2, 3] 7).validation_logs
      (upload_file
        ⟨⟨fun s => s, fun _ => "image/png"⟩, fun _ => "h", false,
          fun _ => "", "s.png", "2025/01/s.png", false, false⟩
        defaultConfig [] [] [] 1 "a.png" [1, 2, 3] 7).fs
      2 "a.png" [1, 2, 3] 7).file_id = some 1 ∧
    (upload_file
      ⟨⟨fun s => s, fun _ => "image/png"⟩, fun _ => "h", false,
        fun _ => "", "s.png", "2025/01/s.png", false, false⟩
      defaultConfig
      ((upload_file
        ⟨⟨fun s => s, fun _ => "image/png"⟩, fun _ => "h", false,
          fun _ => "", "s.png", "2025/01/s.png", false, false⟩
        defaultConfig [] [] [] 1 "a.png" [1, 2, 3] 7).registry)
      [] [] 2 "a.png" [1, 2, 3] 8).file_id = some 2 := by
  have h := (upload_dedup_scoped
    ⟨⟨fun s => s, fun _ => "image/png"⟩, fun _ => "h", false,
      fun _ => "", "s.png", "2025/01/s.png", false, false⟩
    defaultConfig [] [] [] 1 "a.png" [1, 2, 3]
    ⟨"a.png", "image", "png", "image/png", 3⟩
    (by decide) (by decide) (by decide) (Or.inl rfl)).2 rfl rfl 7 rfl
  obtain ⟨h1, h2, h3⟩ := h
  have h4 := h3 8 (by omega) rfl
  refine ⟨by rw [h1], ?_, ?_⟩
  · rw [h1]
    simp only
    rw [h2]
  · rw [h1]
    simp only
    exact h4.1

/-- C3 counterexample: owner 7's registry holds an inactive (owner,
hash) match inserted before an active one; admission of the same bytes
misses the active duplicate, stores a fresh copy, and returns a new id
instead of the active asset's id 2. -/
theorem upload_dedup_scoped_cex :
    (⟨2, 7, "a.png", "s0.png", "p0", 3, "image", "image/png", "png", "h",
        "pending", none, none, none, true, true, none⟩ : MediaFileR)
      ∈ ([⟨1, 7, "a.png", "s1.png", "p1", 3, "image", "image/png", "png",
            "h", "pending", none, none, none, false, true, none⟩,
          ⟨2, 7, "a.png", "s0.png", "p0", 3, "image", "image/png", "png",
            "h", "pending", none, none, none, true, true, none⟩] :
          List MediaFileR) ∧
    (upload_file
      ⟨⟨fun s => s, fun _ => "image/png"⟩, fun _ => "h", false,
        fun _ => "", "s.png", "2025/01/s.png", false, false⟩
      defaultConfig
      [⟨1, 7, "a.png", "s1.png", "p1", 3, "image", "image/png", "png",
          "h", "pending", none, none, none, false, true, none⟩,
        ⟨2, 7, "a.png", "s0.png", "p0", 3, "image", "image/png", "png",
          "h", "pending", none, none, none, true, true, none⟩]
      [] [] 3 "a.png" [1, 2, 3] 7).duplicate_detected = false ∧
    (upload_file
      ⟨⟨fun s => s, fun _ => "image/png"⟩, fun _ => "h", false,
        fun _ => "", "s.png", "2025/01/s.png", false, false⟩
      defaultConfig
      [⟨1, 7, "a.png", "s1.png", "p1", 3, "image", "image/png", "png",
          "h", "pending", none, none, none, false, true, none⟩,
        ⟨2, 7, "a.png", "s0.png", "p0", 3, "image", "image/png", "png",
          "h", "pending", none, none, none, true, true, none⟩]
      [] [] 3 "a.png" [1, 2, 3] 7).file_id = some 3 ∧
    fsExists (upload_file
      ⟨⟨fun s => s, fun _ => "image/png"⟩, fun _ => "h", false,
        fun _ => "", "s.png", "2025/01/s.png", false, false⟩
      defaultConfig
      [⟨1, 7, "a.png", "s1.png", "p1", 3, "image", "image/png", "png",
          "h", "pending", none, none, none, false, true, none⟩,
        ⟨2, 7, "a.png", "s0.png", "p0", 3, "image", "image/png", "png",
          "h", "pending", none, none, none, true, true, none⟩]
      [] [] 3 "a.png" [1, 2, 3] 7).fs "2025/01/s.png" = true := by
  refine ⟨by decide, by decide, by decide, by decide⟩

end TelegiveMedia
